import Mathlib

/-!
# libdisplaydevice: `src/windows/winapilayer.cpp`

A shallow embedding of the Windows API layer of libdisplaydevice and proofs
about it.  Every operating-system call the C++ code makes is a field of an
environment record (`WinApi`); the C++ functions become pure functions of
that environment.  The two unbounded loops of the source (`do ... while` in
`query_display_config`, `for (;;)` in `get_device_id`) take a fuel argument:
`none` means that the loop has not left within that many iterations.
-/

namespace display_device

/-! ## Machine types and Windows constants -/

/-- A `wchar_t`: on Windows a 16-bit UTF-16 code unit. -/
abbrev wchar_t := Nat

/-- A `BYTE` (`unsigned char`). -/
abbrev BYTE := Nat

/-- A Windows `LONG` status code. -/
abbrev LONG := Int

/-- A Windows `DWORD`. -/
abbrev DWORD := Nat

/-- A `std::wstring`: a sequence of wide characters. -/
abbrev wstring := List wchar_t

/-- A `std::string`: a sequence of `char`. -/
abbrev std_string := List Char

/-- The value of `ERROR_SUCCESS` in `winerror.h`. -/
def ERROR_SUCCESS : LONG := 0

/-- The value of `ERROR_INSUFFICIENT_BUFFER` in `winerror.h`. -/
def ERROR_INSUFFICIENT_BUFFER : LONG := 122

/-- The value of `ERROR_INVALID_PARAMETER` in `winerror.h`. -/
def ERROR_INVALID_PARAMETER : LONG := 87

/-- The value of `ERROR_NOT_SUPPORTED` in `winerror.h`. -/
def ERROR_NOT_SUPPORTED : LONG := 50

/-- The value of `ERROR_ACCESS_DENIED` in `winerror.h`. -/
def ERROR_ACCESS_DENIED : LONG := 5

/-- The value of `ERROR_GEN_FAILURE` in `winerror.h`. -/
def ERROR_GEN_FAILURE : LONG := 31

/-- The value of `ERROR_NO_MORE_ITEMS` in `winerror.h`. -/
def ERROR_NO_MORE_ITEMS : DWORD := 259

/-- The value of `QDC_ALL_PATHS` in `wingdi.h`. -/
def QDC_ALL_PATHS : Nat := 1

/-- The value of `QDC_ONLY_ACTIVE_PATHS` in `wingdi.h`. -/
def QDC_ONLY_ACTIVE_PATHS : Nat := 2

/-- The value of `QDC_VIRTUAL_MODE_AWARE` in `wingdi.h`. -/
def QDC_VIRTUAL_MODE_AWARE : Nat := 16

/-- The number of values of a `DWORD`: `++monitor_index` wraps at this bound. -/
def DWORD_range : Nat := 4294967296

/-- The size of a `wchar_t` in bytes on Windows. -/
def sizeof_wchar_t : Nat := 2

/-- The wide character `L'&'`. -/
def ampersand : wchar_t := 38

/-! ## Buffers -/

/-- The call `v.resize(n)` of a `std::vector` or `std::basic_string`: the first `n`
elements are kept and missing ones are value-initialised (`zero`). -/
def vector_resize {α : Type} (v : List α) (n : Nat) (zero : α) : List α :=
  v.take n ++ List.replicate (n - v.length) zero

/-- The content of a buffer after the operating system wrote the elements
`written` from its start; nothing is written past the end of the buffer. -/
def buffer_write {α : Type} (buffer written : List α) : List α :=
  written.take buffer.length ++ buffer.drop written.length

/-- The conversion of a NUL-terminated `wchar_t` array to a `std::wstring`:
the characters before the first NUL.  `array` holds everything that can be read from the
start of the array on; reading ends with it. -/
def wstring_of_array (array : List wchar_t) : wstring :=
  array.takeWhile (fun c => c != 0)

/-- The bytes of a range of wide characters, as seen through
`reinterpret_cast<const BYTE *>` (little endian, two bytes per character). -/
def wstring_bytes : wstring → List BYTE
  | [] => []
  | c :: rest => c % 256 :: (c / 256) % 256 :: wstring_bytes rest

/-- The call `s.find_first_of(c, pos)` on the characters of `s` from index `index` on,
`rest` being those characters; `none` is `std::wstring::npos`. -/
def find_from (c : wchar_t) : wstring → Nat → Option Nat
  | [], _ => none
  | x :: rest, index => if x = c then some index else find_from c rest (index + 1)

/-- The call `s.find_first_of(c, pos)`; `none` is `std::wstring::npos`. -/
def find_first_of (s : wstring) (c : wchar_t) (pos : Nat) : Option Nat :=
  find_from c (s.drop pos) pos

/-- The call `boost::iequals(a, b)`: both ranges have the same length and their
elements agree after `std::toupper` in the locale. -/
def iequals (toupper : wchar_t → wchar_t) : wstring → wstring → Bool
  | [], [] => true
  | x :: xs, y :: ys => if toupper x = toupper y then iequals toupper xs ys else false
  | _, _ => false

/-! ## Display configuration records -/

/-- The adapter identifier of a path: a `LUID`. -/
structure LUID where
  LowPart : Nat
  HighPart : Int
deriving DecidableEq, Repr

/-- The fields of `DISPLAYCONFIG_PATH_SOURCE_INFO` that the layer reads. -/
structure DISPLAYCONFIG_PATH_SOURCE_INFO where
  adapterId : LUID
  id : Nat
  statusFlags : Nat
deriving DecidableEq, Repr

/-- The fields of `DISPLAYCONFIG_PATH_TARGET_INFO` that the layer reads. -/
structure DISPLAYCONFIG_PATH_TARGET_INFO where
  adapterId : LUID
  id : Nat
  statusFlags : Nat
deriving DecidableEq, Repr

/-- A display path: one source to target connection. -/
structure DISPLAYCONFIG_PATH_INFO where
  sourceInfo : DISPLAYCONFIG_PATH_SOURCE_INFO
  targetInfo : DISPLAYCONFIG_PATH_TARGET_INFO
  flags : Nat
deriving DecidableEq, Repr

/-- A display mode record (the union of mode payloads is kept as raw words). -/
structure DISPLAYCONFIG_MODE_INFO where
  infoType : Nat
  id : Nat
  adapterId : LUID
  payload : List Nat
deriving DecidableEq, Repr

/-- A value-initialised `DISPLAYCONFIG_PATH_INFO`, as `resize` creates it. -/
def zero_path : DISPLAYCONFIG_PATH_INFO :=
  ⟨⟨⟨0, 0⟩, 0, 0⟩, ⟨⟨0, 0⟩, 0, 0⟩, 0⟩

/-- A value-initialised `DISPLAYCONFIG_MODE_INFO`, as `resize` creates it. -/
def zero_mode : DISPLAYCONFIG_MODE_INFO :=
  ⟨0, 0, ⟨0, 0⟩, []⟩

/-- The type `path_and_mode_data_t`. -/
structure path_and_mode_data_t where
  paths : List DISPLAYCONFIG_PATH_INFO
  modes : List DISPLAYCONFIG_MODE_INFO
deriving DecidableEq, Repr

/-- The type `query_type_e`. -/
inductive query_type_e where
  | Active
  | All
deriving DecidableEq, Repr

/-! ## Answers of the operating system -/

/-- The answer of `DisplayConfigGetDeviceInfo` to a
`DISPLAYCONFIG_DEVICE_INFO_GET_TARGET_NAME` request: the status and the fields of
`DISPLAYCONFIG_TARGET_DEVICE_NAME` the layer reads (the two names are the
`WCHAR` arrays of the structure). -/
structure TargetDeviceName where
  result : LONG
  friendlyNameFromEdid : Bool
  monitorFriendlyDeviceName : List wchar_t
  monitorDevicePath : List wchar_t
deriving DecidableEq, Repr

/-- The answers to the two `SetupDiGetDeviceInterfaceDetailW` calls of
`get_device_interface_detail`. -/
structure InterfaceDetailAnswer where
  size_call_succeeded : Bool
  required_size_in_bytes : Nat
  detail_call_succeeded : Bool
  DevicePath : List wchar_t
deriving DecidableEq, Repr

/-- The answers to the two `SetupDiGetDeviceInstanceIdW` calls of
`get_device_instance_id`; `written` are the characters the second call stores. -/
structure InstanceIdAnswer where
  size_call_succeeded : Bool
  required_size_in_characters : Nat
  id_call_succeeded : Bool
  written : List wchar_t
deriving DecidableEq, Repr

/-- The answers to `SetupDiOpenDevRegKey` and the two `RegQueryValueExW` calls of
`get_device_edid`; `data` are the bytes the second query stores. -/
structure EdidAnswer where
  reg_key_valid : Bool
  size_status : LONG
  required_size_in_bytes : Nat
  data_status : LONG
  data : List BYTE
deriving DecidableEq, Repr

/-- What the operating system answers for one device interface of the set. -/
structure InterfaceEntry where
  detail : InterfaceDetailAnswer
  instance_id : InstanceIdAnswer
  edid : EdidAnswer
deriving DecidableEq, Repr

/-- The answer of `SetupDiEnumDeviceInterfaces` for one index: failure with the
`GetLastError` code, or an interface. -/
inductive EnumAnswer where
  | failed (error_code : DWORD)
  | found (entry : InterfaceEntry)
deriving DecidableEq, Repr

/-- The answer of `GetDisplayConfigBufferSizes`. -/
structure BufferSizesAnswer where
  result : LONG
  path_count : Nat
  mode_count : Nat
deriving DecidableEq, Repr

/-- The answer of `QueryDisplayConfig`: the status, the counts it reports back and
the records it stores from the start of the two buffers. -/
structure QueryAnswer where
  result : LONG
  path_count : Nat
  mode_count : Nat
  paths : List DISPLAYCONFIG_PATH_INFO
  modes : List DISPLAYCONFIG_MODE_INFO
deriving DecidableEq, Repr

/-- The environment of the layer: the answer of every operating-system and library
call it makes.  `GetDisplayConfigBufferSizes` and `QueryDisplayConfig` are indexed by
the round of the loop that calls them, since the display state may change between
rounds; `QueryDisplayConfig` is also given the two buffer sizes. -/
structure WinApi where
  GetDisplayConfigBufferSizes : Nat → Nat → BufferSizesAnswer
  QueryDisplayConfig : Nat → Nat → Nat → Nat → QueryAnswer
  DisplayConfigGetDeviceInfo : LUID → Nat → TargetDeviceName
  SetupDiGetClassDevsW : Bool
  SetupDiEnumDeviceInterfaces : DWORD → EnumAnswer
  toupper : wchar_t → wchar_t
  WideCharToMultiByte_size : wstring → Nat
  WideCharToMultiByte : wstring → Nat → Nat × List Char

/-! ## Helpers of the anonymous namespace -/

/-- The function `get_monitor_device_path_wstr`: empty on a failed query,
otherwise the `monitorDevicePath` array as a wide string. -/
def get_monitor_device_path_wstr (os : WinApi) (path : DISPLAYCONFIG_PATH_INFO) : wstring :=
  let target_name := os.DisplayConfigGetDeviceInfo path.targetInfo.adapterId path.targetInfo.id
  if target_name.result ≠ ERROR_SUCCESS then []
  else wstring_of_array target_name.monitorDevicePath

/-- The function `get_device_interface_detail`: the returned flag and the content
of the out-parameter `dev_interface_path` afterwards. -/
def get_device_interface_detail (answer : InterfaceDetailAnswer)
    (dev_interface_path : wstring) : Bool × wstring :=
  if answer.size_call_succeeded then (false, dev_interface_path)
  else if answer.required_size_in_bytes ≤ 0 then (false, dev_interface_path)
  else if !answer.detail_call_succeeded then (false, dev_interface_path)
  else
    let dev_interface_path := wstring_of_array answer.DevicePath
    (!dev_interface_path.isEmpty, dev_interface_path)

/-- The function `get_device_instance_id`: the returned flag and the content of the
out-parameter `instance_id` afterwards. -/
def get_device_instance_id (answer : InstanceIdAnswer) (instance_id : wstring) :
    Bool × wstring :=
  if answer.size_call_succeeded then (false, instance_id)
  else if answer.required_size_in_characters ≤ 0 then (false, instance_id)
  else
    let instance_id := vector_resize instance_id answer.required_size_in_characters 0
    let instance_id := buffer_write instance_id answer.written
    if !answer.id_call_succeeded then (false, instance_id)
    else (!instance_id.isEmpty, instance_id)

/-- The function `get_device_edid`: the returned flag and the content of the
out-parameter `edid` afterwards. -/
def get_device_edid (answer : EdidAnswer) (edid : List BYTE) : Bool × List BYTE :=
  if !answer.reg_key_valid then (false, edid)
  else if answer.size_status ≠ ERROR_SUCCESS then (false, edid)
  else
    let edid := vector_resize edid answer.required_size_in_bytes 0
    let edid := buffer_write edid answer.data
    if answer.data_status ≠ ERROR_SUCCESS then (false, edid)
    else (!edid.isEmpty, edid)

/-- The function `to_utf8`. -/
def to_utf8 (os : WinApi) (value : wstring) : std_string :=
  if value.isEmpty then []
  else
    let output_size := os.WideCharToMultiByte_size value
    if output_size = 0 then []
    else
      let output := List.replicate output_size (Char.ofNat 0)
      let converted := os.WideCharToMultiByte value output.length
      let output := buffer_write output converted.2
      if converted.1 = 0 then [] else output

/-! ## `WinApiLayer::get_device_id` -/

/-- The body of the scan loop of `get_device_id` from the instance-id fetch to the
final `break` (the part run for the matched interface): the content of
`device_id_data` when the loop is left. -/
def get_device_id_matched (entry : InterfaceEntry) (device_id_data : List BYTE) : List BYTE :=
  let fetched := get_device_instance_id entry.instance_id []
  let instance_id := fetched.2
  if !fetched.1 then device_id_data
  else
    let edid := get_device_edid entry.edid device_id_data
    let device_id_data := edid.2
    if !edid.1 then device_id_data
    else
      let unstable_part_index :=
        match find_first_of instance_id ampersand 0 with
        | some first => find_first_of instance_id ampersand (first + 1)
        | none => none
      match unstable_part_index with
      | none => device_id_data
      | some unstable_part_index =>
        match find_first_of instance_id ampersand (unstable_part_index + 1) with
        | none => device_id_data
        | some semi_stable_part_index =>
          device_id_data
            ++ wstring_bytes (instance_id.take unstable_part_index)
            ++ wstring_bytes (instance_id.drop semi_stable_part_index)

/-- The scan loop `for (DWORD monitor_index = 0;; ++monitor_index)` of
`get_device_id`, started at `monitor_index` with an empty `device_id_data`.
The result is the content of `device_id_data` when the loop is left, with the
indices passed to `SetupDiEnumDeviceInterfaces` so far in order (`examined`);
`none` when the loop has not been left after `fuel` iterations. -/
def get_device_id_scan (os : WinApi) (device_path : wstring) :
    Nat → DWORD → List DWORD → Option (List BYTE × List DWORD)
  | 0, _, _ => none
  | fuel + 1, monitor_index, examined =>
    let examined := examined ++ [monitor_index]
    match os.SetupDiEnumDeviceInterfaces monitor_index with
    | EnumAnswer.failed error_code =>
      if error_code = ERROR_NO_MORE_ITEMS then some ([], examined)
      else get_device_id_scan os device_path fuel ((monitor_index + 1) % DWORD_range) examined
    | EnumAnswer.found entry =>
      let detail := get_device_interface_detail entry.detail []
      if !detail.1 then
        get_device_id_scan os device_path fuel ((monitor_index + 1) % DWORD_range) examined
      else if !iequals os.toupper detail.2 device_path then
        get_device_id_scan os device_path fuel ((monitor_index + 1) % DWORD_range) examined
      else some (get_device_id_matched entry [], examined)

/-- The raw bytes `get_device_id` passes to the name generator when the monitor
device path is not empty: `device_id_data` after the scan and the fallback.
`none` when the scan has not ended after `fuel` iterations. -/
def get_device_id_data (os : WinApi) (fuel : Nat) (path : DISPLAYCONFIG_PATH_INFO) :
    Option (List BYTE) :=
  let device_path := get_monitor_device_path_wstr os path
  let scanned : Option (List BYTE) :=
    if os.SetupDiGetClassDevsW then
      (get_device_id_scan os device_path fuel 0 []).map Prod.fst
    else some []
  scanned.map fun device_id_data =>
    if device_id_data.isEmpty then device_id_data ++ wstring_bytes device_path
    else device_id_data

/-- A `boost::uuids::uuid`: sixteen bytes. -/
structure uuid where
  data : List BYTE
  size_eq : data.length = 16

/-- Modelled from the spec: the hexadecimal digit of a nibble in
`boost::uuids::to_string` (library code outside src/), lower case. -/
def to_char (i : Nat) : Char :=
  if i ≤ 9 then Char.ofNat (48 + i) else Char.ofNat (97 + (i - 10))

/-- Modelled from the spec: the loop of `boost::uuids::to_string` (library code
outside src/) from byte index `i` on: two digits per byte, a hyphen after the bytes
4, 6, 8 and 10. -/
def to_string_from : List BYTE → Nat → std_string
  | [], _ => []
  | b :: rest, i =>
    let digits := [to_char ((b / 16) % 16), to_char (b % 16)]
    let dash := if i = 3 ∨ i = 5 ∨ i = 7 ∨ i = 9 then [Char.ofNat 45] else []
    digits ++ dash ++ to_string_from rest (i + 1)

/-- Modelled from the spec: `boost::uuids::to_string` is library code outside
src/; the spec (4.4) has it format the 128-bit value as the canonical hyphenated
hexadecimal UUID string, two lower-case digits per byte with a hyphen after the
bytes 4, 6, 8 and 10. -/
def to_string (u : uuid) : std_string :=
  to_string_from u.data 0

/-- The last lines of `get_device_id`: the identity string for the raw bytes,
`name_generator_sha1` being the boost name generator over the null namespace. -/
def make_device_id (name_generator_sha1 : List BYTE → uuid) (device_id_data : List BYTE) :
    std_string :=
  let boost_uuid := name_generator_sha1 device_id_data
  [Char.ofNat 123] ++ to_string boost_uuid ++ [Char.ofNat 125]

/-- The function `WinApiLayer::get_device_id`; `none` when the scan loop has not
ended after `fuel` iterations. -/
def get_device_id (name_generator_sha1 : List BYTE → uuid) (os : WinApi) (fuel : Nat)
    (path : DISPLAYCONFIG_PATH_INFO) : Option std_string :=
  let device_path := get_monitor_device_path_wstr os path
  if device_path.isEmpty then some []
  else (get_device_id_data os fuel path).map (make_device_id name_generator_sha1)

/-! ## `WinApiLayer::get_friendly_name` -/

/-- The content of a value-initialised `WCHAR` array of `size` elements after the
operating system stored the characters `written` from its start. -/
def wchar_array (size : Nat) (written : List wchar_t) : List wchar_t :=
  buffer_write (List.replicate size 0) written

/-- The conversion of `target_name.monitorFriendlyDeviceName` to the `std::wstring`
argument of `to_utf8`.  The array decays to a pointer, so the characters are read up to
the first NUL: those of the 64 elements of `monitorFriendlyDeviceName` and, when none of
them is NUL, on into the 128 elements of `monitorDevicePath`, the next member of
`DISPLAYCONFIG_TARGET_DEVICE_NAME`. -/
def friendly_name_wstr (target_name : TargetDeviceName) : wstring :=
  wstring_of_array
    (wchar_array 64 target_name.monitorFriendlyDeviceName
      ++ wchar_array 128 target_name.monitorDevicePath)

/-- The function `WinApiLayer::get_friendly_name`. -/
def get_friendly_name (os : WinApi) (path : DISPLAYCONFIG_PATH_INFO) : std_string :=
  let target_name := os.DisplayConfigGetDeviceInfo path.targetInfo.adapterId path.targetInfo.id
  if target_name.result ≠ ERROR_SUCCESS then []
  else if target_name.friendlyNameFromEdid then to_utf8 os (friendly_name_wstr target_name)
  else []

/-! ## `WinApiLayer::get_error_string` -/

/-- Modelled from the spec: `operator<<` of the standard library is outside src/; it
writes the decimal rendering of the code.  These are the decimal digits of `n`, most
significant first; `fuel` bounds their number. -/
def decimal_digits : Nat → Nat → std_string
  | 0, _ => []
  | fuel + 1, n =>
    if n < 10 then [Char.ofNat (48 + n)]
    else decimal_digits fuel (n / 10) ++ [Char.ofNat (48 + n % 10)]

/-- Modelled from the spec: what `error << error_code` writes for a `LONG` into a
fresh stream (library code outside src/): a minus sign for a negative value, then the
decimal digits of its magnitude. -/
def decimal (value : LONG) : std_string :=
  if value < 0 then Char.ofNat 45 :: decimal_digits (value.natAbs + 1) value.natAbs
  else decimal_digits (value.natAbs + 1) value.natAbs

/-- The `switch` of `get_error_string`: what is written between `[code: ` and
`, message: `. -/
def get_error_string_code (error_code : LONG) : std_string :=
  if error_code = ERROR_INVALID_PARAMETER then String.toList "ERROR_INVALID_PARAMETER"
  else if error_code = ERROR_NOT_SUPPORTED then String.toList "ERROR_NOT_SUPPORTED"
  else if error_code = ERROR_ACCESS_DENIED then String.toList "ERROR_ACCESS_DENIED"
  else if error_code = ERROR_INSUFFICIENT_BUFFER then String.toList "ERROR_INSUFFICIENT_BUFFER"
  else if error_code = ERROR_GEN_FAILURE then String.toList "ERROR_GEN_FAILURE"
  else if error_code = ERROR_SUCCESS then String.toList "ERROR_SUCCESS"
  else decimal error_code

/-- The function `WinApiLayer::get_error_string`; `message` is
`std::system_category().message`, the system message of a code. -/
def get_error_string (message : LONG → std_string) (error_code : LONG) : std_string :=
  String.toList "[code: " ++ get_error_string_code error_code
    ++ String.toList ", message: " ++ message error_code ++ String.toList "]"

/-! ## `WinApiLayer::query_display_config` -/

/-- One operating-system call of `query_display_config`, with the status returned. -/
inductive ConfigCall where
  | buffer_sizes (result : LONG)
  | query (result : LONG)
deriving DecidableEq, Repr

/-- The `flags` of `query_display_config`. -/
def query_flags (type : query_type_e) : Nat :=
  (if type = query_type_e.Active then QDC_ONLY_ACTIVE_PATHS else QDC_ALL_PATHS)
    ||| QDC_VIRTUAL_MODE_AWARE

/-- The `do ... while (result == ERROR_INSUFFICIENT_BUFFER)` loop of
`query_display_config` with the statement after it, entered for round `round`
with the vectors `paths` and `modes` and the calls made so far.  The result is
the returned optional with all calls made, in order; `none` when the loop has
not been left after `fuel` rounds. -/
def query_display_config_loop (os : WinApi) (flags : Nat) :
    Nat → Nat → List DISPLAYCONFIG_PATH_INFO → List DISPLAYCONFIG_MODE_INFO →
    List ConfigCall → Option (Option path_and_mode_data_t × List ConfigCall)
  | 0, _, _, _, _ => none
  | fuel + 1, round, paths, modes, calls =>
    let sizes := os.GetDisplayConfigBufferSizes round flags
    let calls := calls ++ [ConfigCall.buffer_sizes sizes.result]
    if sizes.result ≠ ERROR_SUCCESS then some (none, calls)
    else
      let paths := vector_resize paths sizes.path_count zero_path
      let modes := vector_resize modes sizes.mode_count zero_mode
      let answer := os.QueryDisplayConfig round flags sizes.path_count sizes.mode_count
      let paths := buffer_write paths answer.paths
      let modes := buffer_write modes answer.modes
      let calls := calls ++ [ConfigCall.query answer.result]
      let paths := vector_resize paths answer.path_count zero_path
      let modes := vector_resize modes answer.mode_count zero_mode
      if answer.result = ERROR_INSUFFICIENT_BUFFER then
        query_display_config_loop os flags fuel (round + 1) paths modes calls
      else if answer.result ≠ ERROR_SUCCESS then some (none, calls)
      else some (some ⟨paths, modes⟩, calls)

/-- The function `WinApiLayer::query_display_config`: the returned optional and the
operating-system calls made; `none` when the loop has not been left after `fuel`
rounds. -/
def query_display_config (os : WinApi) (fuel : Nat) (type : query_type_e) :
    Option (Option path_and_mode_data_t × List ConfigCall) :=
  query_display_config_loop os (query_flags type) fuel 0 [] [] []

/-! ## Vocabulary of the statements -/

/-- The answer of `QueryDisplayConfig` in round `round`, for the sizes the
buffer-size call of that round returned. -/
def round_query (os : WinApi) (flags round : Nat) : QueryAnswer :=
  os.QueryDisplayConfig round flags
    (os.GetDisplayConfigBufferSizes round flags).path_count
    (os.GetDisplayConfigBufferSizes round flags).mode_count

/-- A status after which `query_display_config` gives up: a buffer-size call that
is not a success, or a query that is neither a success nor "insufficient buffer". -/
def non_recoverable : ConfigCall → Bool
  | ConfigCall.buffer_sizes result => result != ERROR_SUCCESS
  | ConfigCall.query result => result != ERROR_SUCCESS && result != ERROR_INSUFFICIENT_BUFFER

/-- Round `round` ends the loop: its buffer-size call fails or its query returns
something else than "insufficient buffer". -/
def final_round (os : WinApi) (flags round : Nat) : Bool :=
  (os.GetDisplayConfigBufferSizes round flags).result != ERROR_SUCCESS
    || (round_query os flags round).result != ERROR_INSUFFICIENT_BUFFER

/-- The calls of `n` rounds in which the buffer-size call succeeds and the query
reports "insufficient buffer". -/
def retry_calls : Nat → List ConfigCall
  | 0 => []
  | n + 1 =>
    ConfigCall.buffer_sizes ERROR_SUCCESS :: ConfigCall.query ERROR_INSUFFICIENT_BUFFER
      :: retry_calls n

/-- The enumeration reports `ERROR_NO_MORE_ITEMS` at index `i`. -/
def enumeration_ends (os : WinApi) (i : Nat) : Bool :=
  match os.SetupDiEnumDeviceInterfaces i with
  | EnumAnswer.failed error_code => error_code == ERROR_NO_MORE_ITEMS
  | EnumAnswer.found _ => false

/-- The entry at index `i` matches: its detail fetch succeeds with a non-empty
path that equals the monitor device path ignoring case. -/
def entry_matches (os : WinApi) (device_path : wstring) (i : Nat) : Bool :=
  match os.SetupDiEnumDeviceInterfaces i with
  | EnumAnswer.failed _ => false
  | EnumAnswer.found entry =>
    (get_device_interface_detail entry.detail []).1
      && iequals os.toupper (get_device_interface_detail entry.detail []).2 device_path

/-- Index `k` holds `entry`, the first match of the enumeration: `entry` matches,
and every index before `k` is neither a match nor the end of the enumeration. -/
def first_match (os : WinApi) (device_path : wstring) (k : Nat) (entry : InterfaceEntry) :
    Prop :=
  k < DWORD_range
    ∧ (∀ j, j < k → entry_matches os device_path j = false ∧ enumeration_ends os j = false)
    ∧ os.SetupDiEnumDeviceInterfaces k = EnumAnswer.found entry
    ∧ entry_matches os device_path k = true

/-- The scan of `get_device_id` for `path` is run and index `k` holds `entry`, its
first match. -/
def matched_for (os : WinApi) (path : DISPLAYCONFIG_PATH_INFO) (k : Nat)
    (entry : InterfaceEntry) : Prop :=
  os.SetupDiGetClassDevsW = true
    ∧ first_match os (get_monitor_device_path_wstr os path) k entry

instance (os : WinApi) (device_path : wstring) (k : Nat) (entry : InterfaceEntry) :
    Decidable (first_match os device_path k entry) := by
  unfold first_match
  infer_instance

instance (os : WinApi) (path : DISPLAYCONFIG_PATH_INFO) (k : Nat) (entry : InterfaceEntry) :
    Decidable (matched_for os path k entry) := by
  unfold matched_for
  infer_instance

/-- The six codes `get_error_string` writes by their symbolic name. -/
def symbolic_codes : List LONG :=
  [ERROR_INVALID_PARAMETER, ERROR_NOT_SUPPORTED, ERROR_ACCESS_DENIED,
    ERROR_INSUFFICIENT_BUFFER, ERROR_GEN_FAILURE, ERROR_SUCCESS]

/-- The number a sequence of decimal digits stands for. -/
def decimal_value (digits : std_string) : Nat :=
  digits.foldl (fun value digit => 10 * value + (digit.toNat - 48)) 0

/-- The text starts like a number: with a minus sign or a decimal digit. -/
def starts_numeric : std_string → Bool
  | [] => false
  | c :: _ => c.toNat == 45 || (48 ≤ c.toNat && c.toNat ≤ 57)

/-- A lower-case hexadecimal digit. -/
def is_hex_digit (c : Char) : Bool :=
  (48 ≤ c.toNat && c.toNat ≤ 57) || (97 ≤ c.toNat && c.toNat ≤ 102)

/-- The identity string has the shape `{8hex-4hex-4hex-4hex-12hex}` from index `i`
of its 38 characters on. -/
def braced_uuid_from : std_string → Nat → Bool
  | [], i => i == 38
  | c :: rest, i =>
    (if i = 0 then c == Char.ofNat 123
     else if i = 37 then c == Char.ofNat 125
     else if i = 9 ∨ i = 14 ∨ i = 19 ∨ i = 24 then c == Char.ofNat 45
     else is_hex_digit c)
    && braced_uuid_from rest (i + 1)

/-- The identity string is `{`, then 8, 4, 4, 4 and 12 hexadecimal digits separated
by single `-` characters, then `}`: 38 characters. -/
def is_braced_uuid (s : std_string) : Bool :=
  braced_uuid_from s 0

/-! ## Sample environments -/

/-- The wide string of an ASCII text. -/
def wide (text : String) : wstring :=
  text.toList.map Char.toNat

/-- The upper-casing of the classic locale on ASCII letters. -/
def ascii_toupper (c : wchar_t) : wchar_t :=
  if 97 ≤ c ∧ c ≤ 122 then c - 32 else c

/-- A name generator for the samples: the first sixteen bytes, padded with zeros. -/
def sample_name_generator (data : List BYTE) : uuid :=
  ⟨vector_resize data 16 0, by simp [vector_resize]; omega⟩

/-- A display path for the samples. -/
def sample_path : DISPLAYCONFIG_PATH_INFO :=
  ⟨⟨⟨1, 0⟩, 0, 0⟩, ⟨⟨1, 0⟩, 4352, 0⟩, 1⟩

/-- An interface whose device path is `device_path`, whose instance id buffer receives
`instance_id` and whose EDID value is `edid`. -/
def sample_entry (device_path instance_id : wstring) (edid : List BYTE) : InterfaceEntry :=
  { detail := ⟨false, 4 + 2 * (device_path.length + 1), true, device_path ++ [0]⟩
    instance_id := ⟨false, instance_id.length, true, instance_id⟩
    edid := ⟨true, 0, edid.length, 0, edid⟩ }

/-- An environment whose target name is `target_name` and whose device
enumeration is `enumeration`, followed by `ERROR_NO_MORE_ITEMS`. -/
def sample_os (target_name : TargetDeviceName) (enumeration : List EnumAnswer) : WinApi :=
  { GetDisplayConfigBufferSizes := fun _ _ => ⟨0, 0, 0⟩
    QueryDisplayConfig := fun _ _ _ _ => ⟨0, 0, 0, [], []⟩
    DisplayConfigGetDeviceInfo := fun _ _ => target_name
    SetupDiGetClassDevsW := true
    SetupDiEnumDeviceInterfaces := fun i => enumeration.getD i (EnumAnswer.failed ERROR_NO_MORE_ITEMS)
    toupper := ascii_toupper
    WideCharToMultiByte_size := fun value => value.length
    WideCharToMultiByte := fun value size => (size, value.map Char.ofNat) }

/-- A successful target name answer with monitor device path `\\?\D#1`. -/
def sample_target_name : TargetDeviceName :=
  ⟨0, true, wide "Monitor" ++ [0], wide "\\\\?\\D#1" ++ [0, 7]⟩

/-- A successful target name answer whose friendly name is not flagged as taken from the
EDID. -/
def sample_generic_target_name : TargetDeviceName :=
  ⟨0, false, wide "Generic PnP Monitor" ++ [0], wide "\\\\?\\D#1" ++ [0]⟩

/-- A successful target name answer whose friendly name fills all 64 elements of its
array with `A` and leaves no room for a NUL. -/
def sample_unterminated_target_name : TargetDeviceName :=
  ⟨0, true, List.replicate 64 65, wide "\\\\?\\D#1" ++ [0]⟩

/-- The conversion of the sample environments: one `char` per wide character. -/
def sample_conversion (value : wstring) : std_string :=
  value.map Char.ofNat

/-- An environment whose enumeration is: a failed index (access denied), an interface
for another monitor, the interface of the sample monitor with the given id and EDID,
and a second interface with the same device path. -/
def sample_scan_os (instance_id : wstring) (edid : List BYTE) : WinApi :=
  sample_os sample_target_name
    [ EnumAnswer.failed 5,
      EnumAnswer.found (sample_entry (wide "\\\\?\\d#2") (wide "X&Y&Z&W") [1]),
      EnumAnswer.found (sample_entry (wide "\\\\?\\d#1") instance_id edid),
      EnumAnswer.found (sample_entry (wide "\\\\?\\d#1") (wide "Q&R&S&T") [9]) ]

/-- Two path records for the samples. -/
def sample_paths : List DISPLAYCONFIG_PATH_INFO :=
  [sample_path, ⟨⟨⟨1, 0⟩, 1, 0⟩, ⟨⟨1, 0⟩, 4353, 0⟩, 1⟩]

/-- A mode record for the samples. -/
def sample_modes : List DISPLAYCONFIG_MODE_INFO :=
  [⟨1, 0, ⟨1, 0⟩, [1920, 1080]⟩]

/-- A system message table for the samples. -/
def sample_message (error_code : LONG) : std_string :=
  if error_code = 0 then String.toList "The operation completed successfully."
  else if error_code = 5 then String.toList "Access is denied."
  else String.toList "Unknown error"

/-- An environment whose buffer-size call always succeeds with sizes 3 and 2 and whose
topology query reports "insufficient buffer" in the rounds before `retries`, and in
round `retries` the status `last` with two paths and one mode. -/
def sample_config_os (retries : Nat) (last : LONG) : WinApi :=
  { sample_os sample_target_name [] with
    GetDisplayConfigBufferSizes := fun _ _ => ⟨0, 3, 2⟩
    QueryDisplayConfig := fun round _ _ _ =>
      if round < retries then ⟨ERROR_INSUFFICIENT_BUFFER, 3, 2, [], []⟩
      else ⟨last, 2, 1, sample_paths, sample_modes⟩ }

/-! ## Lemmas on the string search -/

/-- The search finds the first occurrence after a prefix without the character. -/
theorem find_from_append (c : wchar_t) (A rest : wstring) (i : Nat) (hA : c ∉ A) :
    find_from c (A ++ c :: rest) i = some (i + A.length) := by
  induction A generalizing i with
  | nil => simp [find_from]
  | cons x xs ih =>
    have hx : x ≠ c := fun h => hA (by simp [h])
    have hxs : c ∉ xs := fun h => hA (by simp [h])
    simp [find_from, hx, ih (i + 1) hxs]
    omega

/-- The search fails on a range without the character. -/
theorem find_from_not_mem (c : wchar_t) (A : wstring) (i : Nat) (hA : c ∉ A) :
    find_from c A i = none := by
  induction A generalizing i with
  | nil => simp [find_from]
  | cons x xs ih =>
    have hx : x ≠ c := fun h => hA (by simp [h])
    have hxs : c ∉ xs := fun h => hA (by simp [h])
    simp [find_from, hx, ih (i + 1) hxs]

/-- The first `&` of `A&...` is at index `|A|` when `A` has none. -/
theorem find_first_of_zero (c : wchar_t) (A rest : wstring) (hA : c ∉ A) :
    find_first_of (A ++ c :: rest) c 0 = some A.length := by
  simp [find_first_of, find_from_append c A rest 0 hA]

/-- The search from the end of a prefix `P` finds the next occurrence. -/
theorem find_first_of_after (c : wchar_t) (P A rest : wstring) (hA : c ∉ A) :
    find_first_of (P ++ (A ++ c :: rest)) c P.length = some (P.length + A.length) := by
  simp [find_first_of, find_from_append c A rest P.length hA]

/-- What the loop body collects for an id with three `&` and a fetched EDID. -/
theorem get_device_id_matched_split (entry : InterfaceEntry) (A B C rest : wstring)
    (edid : List BYTE)
    (hid : get_device_instance_id entry.instance_id []
      = (true, A ++ ampersand :: (B ++ ampersand :: (C ++ ampersand :: rest))))
    (hA : ampersand ∉ A) (hB : ampersand ∉ B) (hC : ampersand ∉ C)
    (hedid : get_device_edid entry.edid [] = (true, edid)) :
    get_device_id_matched entry []
      = edid ++ wstring_bytes (A ++ ampersand :: B) ++ wstring_bytes (ampersand :: rest) := by
  have h1 := find_first_of_zero ampersand A (B ++ ampersand :: (C ++ ampersand :: rest)) hA
  have h2 : find_first_of (A ++ ampersand :: (B ++ ampersand :: (C ++ ampersand :: rest)))
      ampersand (A.length + 1) = some (A.length + 1 + B.length) := by
    have h := find_first_of_after ampersand (A ++ [ampersand]) B (C ++ ampersand :: rest) hB
    simpa using h
  have h3 : find_first_of (A ++ ampersand :: (B ++ ampersand :: (C ++ ampersand :: rest)))
      ampersand (A.length + 1 + B.length + 1) = some (A.length + 1 + B.length + 1 + C.length) := by
    have h := find_first_of_after ampersand (A ++ ampersand :: (B ++ [ampersand])) C rest hC
    have e : (A ++ ampersand :: (B ++ [ampersand])).length = A.length + 1 + B.length + 1 := by
      simp; omega
    rw [e] at h
    simpa using h
  have ht : List.take (A.length + 1 + B.length)
      (A ++ ampersand :: (B ++ ampersand :: (C ++ ampersand :: rest))) = A ++ ampersand :: B := by
    have e : A ++ ampersand :: (B ++ ampersand :: (C ++ ampersand :: rest))
        = (A ++ ampersand :: B) ++ (ampersand :: (C ++ ampersand :: rest)) := by simp
    rw [e]
    exact List.take_left' (by simp; omega)
  have hd : List.drop (A.length + 1 + B.length + 1 + C.length)
      (A ++ ampersand :: (B ++ ampersand :: (C ++ ampersand :: rest))) = ampersand :: rest := by
    have e : A ++ ampersand :: (B ++ ampersand :: (C ++ ampersand :: rest))
        = (A ++ ampersand :: (B ++ ampersand :: C)) ++ (ampersand :: rest) := by simp
    rw [e]
    exact List.drop_left' (by simp; omega)
  unfold get_device_id_matched
  simp only [hid, hedid, h1, h2, h3, ht, hd]
  simp

/-! ## Lemmas on the scan loop -/

/-- One iteration at a matching entry: the loop is left with what the body collects. -/
theorem scan_at_match (os : WinApi) (device_path : wstring) (fuel : Nat) (i : Nat)
    (examined : List Nat) (entry : InterfaceEntry)
    (hq : os.SetupDiEnumDeviceInterfaces i = EnumAnswer.found entry)
    (h : entry_matches os device_path i = true) :
    get_device_id_scan os device_path (fuel + 1) i examined
      = some (get_device_id_matched entry [], examined ++ [i]) := by
  unfold entry_matches at h
  unfold get_device_id_scan
  simp only [hq, Bool.and_eq_true] at h ⊢
  simp [h.1, h.2]

/-- One iteration at an index that neither matches nor ends the enumeration. -/
theorem scan_at_skip (os : WinApi) (device_path : wstring) (fuel : Nat) (i : Nat)
    (examined : List Nat) (hm : entry_matches os device_path i = false)
    (he : enumeration_ends os i = false) :
    get_device_id_scan os device_path (fuel + 1) i examined
      = get_device_id_scan os device_path fuel ((i + 1) % DWORD_range) (examined ++ [i]) := by
  unfold entry_matches at hm
  unfold enumeration_ends at he
  conv_lhs => unfold get_device_id_scan
  cases hq : os.SetupDiEnumDeviceInterfaces i with
  | failed error_code =>
    simp only [hq] at he ⊢
    have : error_code ≠ ERROR_NO_MORE_ITEMS := by simpa using he
    simp [this]
  | found entry =>
    simp only [hq] at hm ⊢
    cases hd : (get_device_interface_detail entry.detail []).1 with
    | false => simp
    | true =>
      simp only [hd, Bool.true_and] at hm
      simp [hm]

/-- The loop runs through `k` skipped indices. -/
theorem scan_skips (os : WinApi) (device_path : wstring) (k : Nat) :
    ∀ (fuel : Nat) (start : Nat) (examined : List Nat), start + k < DWORD_range →
      (∀ j, j < k → entry_matches os device_path (start + j) = false
        ∧ enumeration_ends os (start + j) = false) →
      get_device_id_scan os device_path (fuel + k) start examined
        = get_device_id_scan os device_path fuel (start + k) (examined ++ List.range' start k) := by
  induction k with
  | zero => intro fuel start examined _ _; simp
  | succ k ih =>
    intro fuel start examined hlt hskip
    have h0 := hskip 0 (by omega)
    simp only [Nat.add_zero] at h0
    have e : fuel + (k + 1) = (fuel + k) + 1 := by omega
    rw [e, scan_at_skip os device_path (fuel + k) start examined h0.1 h0.2]
    have hmod : (start + 1) % DWORD_range = start + 1 := Nat.mod_eq_of_lt (by omega)
    rw [hmod, ih fuel (start + 1) (examined ++ [start]) (by omega)]
    · have e2 : start + 1 + k = start + (k + 1) := by omega
      rw [e2]
      simp [List.range'_succ]
    · intro j hj
      have := hskip (j + 1) (by omega)
      have e3 : start + 1 + j = start + (j + 1) := by omega
      rw [e3]
      exact this

/-- The loop stops at the first match, having examined the indices `0, ..., k`. -/
theorem scan_first_match (os : WinApi) (device_path : wstring) (k : Nat)
    (entry : InterfaceEntry) (fuel : Nat) (h : first_match os device_path k entry)
    (hfuel : k < fuel) :
    get_device_id_scan os device_path fuel 0 []
      = some (get_device_id_matched entry [], List.range (k + 1)) := by
  obtain ⟨hk, hskip, hq, hm⟩ := h
  obtain ⟨extra, rfl⟩ : ∃ extra, fuel = (extra + 1) + k := ⟨fuel - k - 1, by omega⟩
  rw [scan_skips os device_path k (extra + 1) 0 [] (by omega)
    (by intro j hj; simpa using hskip j hj)]
  simp only [Nat.zero_add, List.nil_append]
  rw [scan_at_match os device_path extra k _ entry hq hm]
  simp [List.range_eq_range', List.range'_concat]

/-! ## Lemmas on the helpers -/

/-- Strings equal ignoring case have the same length. -/
theorem iequals_length (toupper : wchar_t → wchar_t) (a b : wstring)
    (h : iequals toupper a b = true) : a.length = b.length := by
  induction a generalizing b with
  | nil => cases b <;> simp_all [iequals]
  | cons x xs ih =>
    cases b with
    | nil => simp [iequals] at h
    | cons y ys =>
      simp only [iequals] at h
      split at h
      · simp [ih ys h]
      · simp at h

/-- A successful detail fetch yields a non-empty path. -/
theorem interface_detail_nonempty (answer : InterfaceDetailAnswer)
    (h : (get_device_interface_detail answer []).1 = true) :
    (get_device_interface_detail answer []).2 ≠ [] := by
  unfold get_device_interface_detail at h ⊢
  split_ifs at h ⊢
  simp_all

/-- A monitor device path that some entry matches is not empty. -/
theorem device_path_of_match (os : WinApi) (device_path : wstring) (i : Nat)
    (h : entry_matches os device_path i = true) : device_path ≠ [] := by
  unfold entry_matches at h
  cases hq : os.SetupDiEnumDeviceInterfaces i with
  | failed error_code => simp [hq] at h
  | found entry =>
    simp only [hq, Bool.and_eq_true] at h
    have hlen := iequals_length _ _ _ h.2
    have hne := interface_detail_nonempty entry.detail h.1
    intro hnil
    rw [hnil] at hlen
    exact hne (List.length_eq_zero.mp hlen)

/-- A successful EDID fetch leaves a non-empty buffer. -/
theorem edid_nonempty_of_success (answer : EdidAnswer)
    (h : (get_device_edid answer []).1 = true) : (get_device_edid answer []).2 ≠ [] := by
  unfold get_device_edid at h ⊢
  split_ifs at h ⊢
  simp_all

/-- With an empty EDID buffer the loop body collects nothing. -/
theorem matched_of_empty_edid (entry : InterfaceEntry)
    (h : (get_device_edid entry.edid []).2 = []) : get_device_id_matched entry [] = [] := by
  have hflag : (get_device_edid entry.edid []).1 = false := by
    cases hf : (get_device_edid entry.edid []).1 with
    | false => rfl
    | true => exact absurd h (edid_nonempty_of_success entry.edid hf)
  unfold get_device_id_matched
  simp [hflag, h]

/-- The raw bytes after the scan and the fallback, for a first match at `k`. -/
theorem data_of_first_match (os : WinApi) (path : DISPLAYCONFIG_PATH_INFO) (k : Nat)
    (entry : InterfaceEntry) (fuel : Nat) (h : matched_for os path k entry) (hfuel : k < fuel) :
    get_device_id_data os fuel path
      = some (if (get_device_id_matched entry []).isEmpty
          then wstring_bytes (get_monitor_device_path_wstr os path)
          else get_device_id_matched entry []) := by
  unfold get_device_id_data
  simp only [h.1, if_true, scan_first_match os _ k entry fuel h.2 hfuel, Option.map_some']
  split <;> simp_all

/-- A path with a matched record has a non-empty monitor device path. -/
theorem device_path_of_matched_for (os : WinApi) (path : DISPLAYCONFIG_PATH_INFO) (k : Nat)
    (entry : InterfaceEntry) (h : matched_for os path k entry) :
    get_monitor_device_path_wstr os path ≠ [] :=
  device_path_of_match os _ k h.2.2.2.2

/-- With a non-empty monitor device path the identity is made from the raw bytes. -/
theorem get_device_id_of_data (name_generator_sha1 : List BYTE → uuid) (os : WinApi)
    (fuel : Nat) (path : DISPLAYCONFIG_PATH_INFO)
    (h : get_monitor_device_path_wstr os path ≠ []) :
    get_device_id name_generator_sha1 os fuel path
      = (get_device_id_data os fuel path).map (make_device_id name_generator_sha1) := by
  unfold get_device_id
  have : (get_monitor_device_path_wstr os path).isEmpty = false := by
    cases hp : get_monitor_device_path_wstr os path with
    | nil => exact absurd hp h
    | cons _ _ => rfl
  simp [this]

/-- The identity string made from raw bytes is never empty. -/
theorem make_device_id_ne_nil (name_generator_sha1 : List BYTE → uuid) (data : List BYTE) :
    make_device_id name_generator_sha1 data ≠ [] := by
  simp [make_device_id]

/-- Every nibble is rendered as a lower-case hexadecimal digit. -/
theorem hex_digit_to_char (n : Nat) : is_hex_digit (to_char (n % 16)) = true := by
  have h : n % 16 < 16 := Nat.mod_lt _ (by omega)
  generalize n % 16 = m at h
  interval_cases m <;> rfl

/-- The braced rendering of a uuid has the shape `{8hex-4hex-4hex-4hex-12hex}`. -/
theorem to_string_braced (u : uuid) :
    is_braced_uuid ([Char.ofNat 123] ++ to_string u ++ [Char.ofNat 125]) = true := by
  obtain ⟨data, hsize⟩ := u
  match data, hsize with
  | [b0, b1, b2, b3, b4, b5, b6, b7, b8, b9, b10, b11, b12, b13, b14, b15], _ =>
    simp [is_braced_uuid, to_string, to_string_from, braced_uuid_from, hex_digit_to_char]

/-- The rendering of a uuid has 36 characters. -/
theorem to_string_length (u : uuid) : (to_string u).length = 36 := by
  obtain ⟨data, hsize⟩ := u
  match data, hsize with
  | [b0, b1, b2, b3, b4, b5, b6, b7, b8, b9, b10, b11, b12, b13, b14, b15], _ =>
    simp [to_string, to_string_from]

/-! ## The identity of a display: `get_device_id` -/

/-- C2, as stated, fails: for the instance ids `A&B&C&D` and
`DISPLAY\ACI27EC\5&4FD2DE4&5&UID4352` of a matched record with EDID bytes `00 FF`, the
raw identity input keeps the characters before the second `&` and from the third `&` on
(`A&B` then `&D`), not the characters before the first `&` and from the second on. -/
theorem instance_id_split_counterexample :
    get_device_id_data (sample_scan_os (wide "A&B&C&D") [0, 255]) 3 sample_path
        = some ([0, 255] ++ wstring_bytes (wide "A&B") ++ wstring_bytes (wide "&D"))
    ∧ get_device_id_data (sample_scan_os (wide "A&B&C&D") [0, 255]) 3 sample_path
        ≠ some ([0, 255] ++ wstring_bytes (wide "A") ++ wstring_bytes (wide "&C&D"))
    ∧ get_device_id_data
          (sample_scan_os (wide "DISPLAY\\ACI27EC\\5&4FD2DE4&5&UID4352") [0, 255]) 3 sample_path
        = some ([0, 255] ++ wstring_bytes (wide "DISPLAY\\ACI27EC\\5&4FD2DE4")
            ++ wstring_bytes (wide "&UID4352"))
    ∧ get_device_id_data
          (sample_scan_os (wide "DISPLAY\\ACI27EC\\5&4FD2DE4&5&UID4352") [0, 255]) 3 sample_path
        ≠ some ([0, 255] ++ wstring_bytes (wide "DISPLAY\\ACI27EC\\5")
            ++ wstring_bytes (wide "&5&UID4352")) := by
  decide

/-- C2, amended: for every instance id with at least three `&` characters, fetched for
the matched record together with a non-empty EDID, the raw identity input built by
`get_device_id` is the EDID followed by the bytes of the prefix of the id up to (not
including) the second `&` and of the suffix starting at the third `&` (that `&`
included). -/
theorem instance_id_split (os : WinApi) (path : DISPLAYCONFIG_PATH_INFO) (k : Nat)
    (entry : InterfaceEntry) (fuel : Nat) (A B C rest : wstring) (edid : List BYTE)
    (h : matched_for os path k entry)
    (hid : get_device_instance_id entry.instance_id []
      = (true, A ++ ampersand :: (B ++ ampersand :: (C ++ ampersand :: rest))))
    (hA : ampersand ∉ A) (hB : ampersand ∉ B) (hC : ampersand ∉ C)
    (hedid : get_device_edid entry.edid [] = (true, edid)) (hfuel : k < fuel) :
    get_device_id_data os fuel path
      = some (edid ++ wstring_bytes (A ++ ampersand :: B)
          ++ wstring_bytes (ampersand :: rest)) := by
  rw [data_of_first_match os path k entry fuel h hfuel,
    get_device_id_matched_split entry A B C rest edid hid hA hB hC hedid]
  have hne : edid ≠ [] := by
    have := edid_nonempty_of_success entry.edid (by rw [hedid])
    rwa [hedid] at this
  cases edid with
  | nil => exact absurd rfl hne
  | cons b bs => rfl

/-- C2, amended, on a sample: the instance id `A&B&C&D` with EDID bytes `00 FF`. -/
theorem instance_id_split_witness :
    get_device_id_data (sample_scan_os (wide "A&B&C&D") [0, 255]) 3 sample_path
      = some ([0, 255] ++ wstring_bytes (wide "A" ++ ampersand :: wide "B")
          ++ wstring_bytes (ampersand :: wide "D")) :=
  instance_id_split (sample_scan_os (wide "A&B&C&D") [0, 255]) sample_path 2
    (sample_entry (wide "\\\\?\\d#1") (wide "A&B&C&D") [0, 255]) 3
    (wide "A") (wide "B") (wide "C") (wide "D") [0, 255]
    (by decide) (by decide) (by decide) (by decide) (by decide) (by decide) (by decide)

/-- C3, at a failing input: the matched record has the instance id `A&B` (one `&`)
and the EDID bytes `00 FF`; the bytes hashed are the EDID bytes left in the buffer by
the abandoned match, not the bytes of the monitor device path. -/
theorem fallback_missed_after_edid :
    matched_for (sample_scan_os (wide "A&B" ++ [0]) [0, 255]) sample_path 2
        (sample_entry (wide "\\\\?\\d#1") (wide "A&B" ++ [0]) [0, 255])
    ∧ get_device_id_data (sample_scan_os (wide "A&B" ++ [0]) [0, 255]) 3 sample_path
        = some [0, 255]
    ∧ get_device_id_data (sample_scan_os (wide "A&B" ++ [0]) [0, 255]) 3 sample_path
        ≠ some (wstring_bytes
            (get_monitor_device_path_wstr (sample_scan_os (wide "A&B" ++ [0]) [0, 255])
              sample_path)) := by
  decide

/-- C4: two instance ids `P&C&D1&E` and `P&C&D2&E` that differ in the unstable part
only, matched for the same monitor device path with the same non-empty EDID, give the
same raw identity input, the EDID followed by the bytes of `P&C` and of `&E`, and
therefore the same identity. -/
theorem unstable_part_ignored (name_generator_sha1 : List BYTE → uuid) (os1 os2 : WinApi)
    (path1 path2 : DISPLAYCONFIG_PATH_INFO) (k1 k2 : Nat) (entry1 entry2 : InterfaceEntry)
    (fuel1 fuel2 : Nat) (P C D1 D2 E : wstring) (edid : List BYTE)
    (h1 : matched_for os1 path1 k1 entry1) (h2 : matched_for os2 path2 k2 entry2)
    (hid1 : get_device_instance_id entry1.instance_id []
      = (true, P ++ ampersand :: (C ++ ampersand :: (D1 ++ ampersand :: E))))
    (hid2 : get_device_instance_id entry2.instance_id []
      = (true, P ++ ampersand :: (C ++ ampersand :: (D2 ++ ampersand :: E))))
    (hP : ampersand ∉ P) (hC : ampersand ∉ C) (hD1 : ampersand ∉ D1) (hD2 : ampersand ∉ D2)
    (hedid1 : get_device_edid entry1.edid [] = (true, edid))
    (hedid2 : get_device_edid entry2.edid [] = (true, edid))
    (hfuel1 : k1 < fuel1) (hfuel2 : k2 < fuel2) :
    get_device_id_data os1 fuel1 path1
        = some (edid ++ wstring_bytes (P ++ ampersand :: C) ++ wstring_bytes (ampersand :: E))
    ∧ get_device_id_data os2 fuel2 path2 = get_device_id_data os1 fuel1 path1
    ∧ get_device_id name_generator_sha1 os1 fuel1 path1
        = some (make_device_id name_generator_sha1
            (edid ++ wstring_bytes (P ++ ampersand :: C) ++ wstring_bytes (ampersand :: E)))
    ∧ get_device_id name_generator_sha1 os2 fuel2 path2
        = get_device_id name_generator_sha1 os1 fuel1 path1 := by
  have hne : edid ≠ [] := by
    have := edid_nonempty_of_success entry1.edid (by rw [hedid1])
    rwa [hedid1] at this
  have e1 : get_device_id_data os1 fuel1 path1
      = some (edid ++ wstring_bytes (P ++ ampersand :: C)
          ++ wstring_bytes (ampersand :: E)) := by
    rw [data_of_first_match os1 path1 k1 entry1 fuel1 h1 hfuel1,
      get_device_id_matched_split entry1 P C D1 E edid hid1 hP hC hD1 hedid1]
    cases edid with
    | nil => exact absurd rfl hne
    | cons b bs => rfl
  have e2 : get_device_id_data os2 fuel2 path2
      = some (edid ++ wstring_bytes (P ++ ampersand :: C)
          ++ wstring_bytes (ampersand :: E)) := by
    rw [data_of_first_match os2 path2 k2 entry2 fuel2 h2 hfuel2,
      get_device_id_matched_split entry2 P C D2 E edid hid2 hP hC hD2 hedid2]
    cases edid with
    | nil => exact absurd rfl hne
    | cons b bs => rfl
  have p1 := device_path_of_matched_for os1 path1 k1 entry1 h1
  have p2 := device_path_of_matched_for os2 path2 k2 entry2 h2
  refine ⟨e1, by rw [e1, e2], ?_, ?_⟩
  · rw [get_device_id_of_data _ _ _ _ p1, e1]; rfl
  · rw [get_device_id_of_data _ _ _ _ p1, get_device_id_of_data _ _ _ _ p2, e1, e2]

/-- C4, on a sample: the instance ids `A&B&7&D` and `A&B&12&D`. -/
theorem unstable_part_ignored_witness :
    get_device_id sample_name_generator (sample_scan_os (wide "A&B&12&D") [0, 255]) 3
        sample_path
      = get_device_id sample_name_generator (sample_scan_os (wide "A&B&7&D") [0, 255]) 4
        sample_path :=
  (unstable_part_ignored sample_name_generator
    (sample_scan_os (wide "A&B&7&D") [0, 255]) (sample_scan_os (wide "A&B&12&D") [0, 255])
    sample_path sample_path 2 2
    (sample_entry (wide "\\\\?\\d#1") (wide "A&B&7&D") [0, 255])
    (sample_entry (wide "\\\\?\\d#1") (wide "A&B&12&D") [0, 255]) 4 3
    (wide "A") (wide "B") (wide "7") (wide "12") (wide "D") [0, 255]
    (by decide) (by decide) (by decide) (by decide) (by decide) (by decide) (by decide)
    (by decide) (by decide) (by decide) (by decide) (by decide)).2.2.2

/-- C7, as stated, fails: for a matched record with the well-formed instance id
`A&B&C&D` whose EDID fetch returns zero bytes, the raw identity input is the monitor
device path and holds no byte of the instance id. -/
theorem empty_edid_counterexample :
    matched_for (sample_scan_os (wide "A&B&C&D") []) sample_path 2
        (sample_entry (wide "\\\\?\\d#1") (wide "A&B&C&D") [])
    ∧ get_device_edid (sample_entry (wide "\\\\?\\d#1") (wide "A&B&C&D") []).edid []
        = (false, [])
    ∧ get_device_id_data (sample_scan_os (wide "A&B&C&D") []) 3 sample_path
        = some (wstring_bytes (wide "\\\\?\\D#1"))
    ∧ get_device_id_data (sample_scan_os (wide "A&B&C&D") []) 3 sample_path
        ≠ some ([] ++ wstring_bytes (wide "A&B") ++ wstring_bytes (wide "&D"))
    ∧ get_device_id_data (sample_scan_os (wide "A&B&C&D") []) 3 sample_path
        ≠ some ([] ++ wstring_bytes (wide "A") ++ wstring_bytes (wide "&C&D")) := by
  decide

/-- C7, amended: when the EDID fetch of the matched record leaves zero bytes, the match
is abandoned whatever its instance id: the raw identity input is the bytes of the
monitor device path (the fallback), and the identity derived from it is not empty. -/
theorem empty_edid_falls_back (name_generator_sha1 : List BYTE → uuid) (os : WinApi)
    (path : DISPLAYCONFIG_PATH_INFO) (k : Nat) (entry : InterfaceEntry) (fuel : Nat)
    (h : matched_for os path k entry) (hedid : (get_device_edid entry.edid []).2 = [])
    (hfuel : k < fuel) :
    get_device_id_data os fuel path
        = some (wstring_bytes (get_monitor_device_path_wstr os path))
    ∧ get_device_id name_generator_sha1 os fuel path
        = some (make_device_id name_generator_sha1
            (wstring_bytes (get_monitor_device_path_wstr os path)))
    ∧ make_device_id name_generator_sha1
        (wstring_bytes (get_monitor_device_path_wstr os path)) ≠ [] := by
  have e : get_device_id_data os fuel path
      = some (wstring_bytes (get_monitor_device_path_wstr os path)) := by
    rw [data_of_first_match os path k entry fuel h hfuel, matched_of_empty_edid entry hedid]
    rfl
  refine ⟨e, ?_, make_device_id_ne_nil _ _⟩
  rw [get_device_id_of_data _ _ _ _ (device_path_of_matched_for os path k entry h), e]
  rfl

/-- C7, amended, on a sample: the instance id `A&B&C&D` with an EDID of zero bytes. -/
theorem empty_edid_falls_back_witness :
    get_device_id_data (sample_scan_os (wide "A&B&C&D") []) 3 sample_path
      = some (wstring_bytes
          (get_monitor_device_path_wstr (sample_scan_os (wide "A&B&C&D") []) sample_path)) :=
  (empty_edid_falls_back sample_name_generator (sample_scan_os (wide "A&B&C&D") [])
    sample_path 2 (sample_entry (wide "\\\\?\\d#1") (wide "A&B&C&D") []) 3
    (by decide) (by decide) (by decide)).1

/-- C8: for every raw byte sequence that `get_device_id` hashes, the identity string
has exactly 38 characters: `{`, then 8, 4, 4, 4 and 12 hexadecimal digits separated by
single `-` characters, then `}`; every non-empty string that `get_device_id` returns
has this shape. -/
theorem device_id_format (name_generator_sha1 : List BYTE → uuid) :
    (∀ device_id_data : List BYTE,
      is_braced_uuid (make_device_id name_generator_sha1 device_id_data) = true
        ∧ (make_device_id name_generator_sha1 device_id_data).length = 38)
    ∧ (∀ (os : WinApi) (fuel : Nat) (path : DISPLAYCONFIG_PATH_INFO) (id : std_string),
        get_device_id name_generator_sha1 os fuel path = some id → id ≠ [] →
          is_braced_uuid id = true ∧ id.length = 38) := by
  have hfmt : ∀ device_id_data : List BYTE,
      is_braced_uuid (make_device_id name_generator_sha1 device_id_data) = true
        ∧ (make_device_id name_generator_sha1 device_id_data).length = 38 := by
    intro device_id_data
    refine ⟨to_string_braced _, ?_⟩
    simp [make_device_id, to_string_length]
  refine ⟨hfmt, ?_⟩
  intro os fuel path id hid hne
  simp only [get_device_id] at hid
  split_ifs at hid with hp
  · simp only [Option.some.injEq] at hid
    exact absurd hid.symm hne
  · cases hd : get_device_id_data os fuel path with
    | none => simp [hd] at hid
    | some data =>
      simp only [hd, Option.map_some', Option.some.injEq] at hid
      rw [← hid]
      exact hfmt data

/-- C8, on a sample: the identity returned for the sample monitor. -/
theorem device_id_format_witness :
    is_braced_uuid
        (make_device_id sample_name_generator
          ([0, 255] ++ wstring_bytes (wide "A&B") ++ wstring_bytes (wide "&D"))) = true
    ∧ (make_device_id sample_name_generator
          ([0, 255] ++ wstring_bytes (wide "A&B") ++ wstring_bytes (wide "&D"))).length = 38 :=
  (device_id_format sample_name_generator).2
    (sample_scan_os (wide "A&B&C&D") [0, 255]) 3 sample_path _ (by decide) (by decide)

/-- C10: the scan of `get_device_id` is first-match-wins.  When index `k` holds the
first entry whose detail fetch succeeds with a non-empty path equal to the monitor
device path ignoring case, the loop is left with what the body does for that entry,
also when the match is abandoned; the indices passed to the enumeration are exactly
`0, ..., k`, so no later entry is examined, and the result is the same for every
enumeration that agrees up to index `k`. -/
theorem scan_first_match_wins (os : WinApi) (device_path : wstring) (k : Nat)
    (entry : InterfaceEntry) (fuel : Nat) (h : first_match os device_path k entry)
    (hfuel : k < fuel) :
    get_device_id_scan os device_path fuel 0 []
        = some (get_device_id_matched entry [], List.range (k + 1))
    ∧ (∀ os2 : WinApi, os2.toupper = os.toupper →
        (∀ i, i ≤ k → os2.SetupDiEnumDeviceInterfaces i = os.SetupDiEnumDeviceInterfaces i) →
        get_device_id_scan os2 device_path fuel 0 []
          = get_device_id_scan os device_path fuel 0 []) := by
  refine ⟨scan_first_match os device_path k entry fuel h hfuel, ?_⟩
  intro os2 hup hagree
  rw [scan_first_match os device_path k entry fuel h hfuel]
  apply scan_first_match os2 device_path k entry fuel _ hfuel
  obtain ⟨hk, hskip, hq, hm⟩ := h
  refine ⟨hk, ?_, by rw [hagree k (Nat.le_refl k)]; exact hq, ?_⟩
  · intro j hj
    have := hskip j hj
    unfold entry_matches enumeration_ends at this ⊢
    rw [hagree j (by omega), hup]
    exact this
  · unfold entry_matches at hm ⊢
    rw [hagree k (Nat.le_refl k), hup]
    exact hm

/-- C10, on a sample: the sample monitor is entry 2; entry 3 has the same device path
and is not examined. -/
theorem scan_first_match_wins_witness :
    get_device_id_scan (sample_scan_os (wide "A&B&C&D") [0, 255]) (wide "\\\\?\\D#1") 4 0 []
      = some (get_device_id_matched
          (sample_entry (wide "\\\\?\\d#1") (wide "A&B&C&D") [0, 255]) [], List.range (2 + 1)) :=
  (scan_first_match_wins (sample_scan_os (wide "A&B&C&D") [0, 255]) (wide "\\\\?\\D#1") 2
    (sample_entry (wide "\\\\?\\d#1") (wide "A&B&C&D") [0, 255]) 4 (by decide) (by decide)).1

/-! ## The topology query: `query_display_config` -/

/-- After `resize(n)` the vector has `n` elements. -/
theorem vector_resize_length {α : Type} (v : List α) (n : Nat) (zero : α) :
    (vector_resize v n zero).length = n := by
  simp [vector_resize]
  omega

/-- Truncating a buffer to `n` records after at least `n` were written into it. -/
theorem resize_write_take {α : Type} (buffer written : List α) (n : Nat) (zero : α)
    (hw : n ≤ written.length) (hb : n ≤ buffer.length) :
    vector_resize (buffer_write buffer written) n zero = written.take n := by
  unfold vector_resize buffer_write
  have h1 : n ≤ (written.take buffer.length).length := by simp; omega
  rw [List.take_append_of_le_length h1, List.take_take]
  have h2 : n - (written.take buffer.length ++ buffer.drop written.length).length = 0 := by
    simp; omega
  rw [h2]
  simp [Nat.min_eq_left hb]

/-- The loop runs through `n` rounds that report "insufficient buffer". -/
theorem loop_retries (os : WinApi) (flags : Nat) (n : Nat) :
    ∀ (fuel round : Nat) (paths : List DISPLAYCONFIG_PATH_INFO)
      (modes : List DISPLAYCONFIG_MODE_INFO) (calls : List ConfigCall),
      (∀ i, i < n → (os.GetDisplayConfigBufferSizes (round + i) flags).result = ERROR_SUCCESS
        ∧ (round_query os flags (round + i)).result = ERROR_INSUFFICIENT_BUFFER) →
      ∃ paths2 modes2,
        query_display_config_loop os flags (fuel + n) round paths modes calls
          = query_display_config_loop os flags fuel (round + n) paths2 modes2
              (calls ++ retry_calls n) := by
  induction n with
  | zero => intro fuel round paths modes calls _; exact ⟨paths, modes, by simp [retry_calls]⟩
  | succ n ih =>
    intro fuel round paths modes calls h
    have h0 := h 0 (by omega)
    simp only [Nat.add_zero, round_query] at h0
    have e : fuel + (n + 1) = (fuel + n) + 1 := by omega
    rw [e]
    conv => enter [1, paths2, 1, modes2, 1]; unfold query_display_config_loop
    simp only [h0.1, h0.2, ne_eq, not_true_eq_false, if_false, if_true]
    obtain ⟨paths2, modes2, hrec⟩ := ih fuel (round + 1) _ _ _
      (by intro i hi
          have := h (i + 1) (by omega)
          have e3 : round + 1 + i = round + (i + 1) := by omega
          rw [e3]; exact this)
    refine ⟨paths2, modes2, ?_⟩
    rw [hrec]
    have e2 : round + 1 + n = round + (n + 1) := by omega
    rw [e2]
    simp [retry_calls]

/-- Whenever the loop returns, all calls but the last were recoverable, and the last
one decides the value. -/
theorem loop_returns (os : WinApi) (flags : Nat) (fuel : Nat) :
    ∀ (round : Nat) (paths : List DISPLAYCONFIG_PATH_INFO)
      (modes : List DISPLAYCONFIG_MODE_INFO) (calls : List ConfigCall)
      (value : Option path_and_mode_data_t) (made : List ConfigCall),
      query_display_config_loop os flags fuel round paths modes calls = some (value, made) →
      ∃ recovered last, made = calls ++ recovered ++ [last]
        ∧ (∀ c, c ∈ recovered → non_recoverable c = false)
        ∧ ((value = none ∧ non_recoverable last = true)
          ∨ (value ≠ none ∧ last = ConfigCall.query ERROR_SUCCESS)) := by
  induction fuel with
  | zero => intro round paths modes calls value made h; simp [query_display_config_loop] at h
  | succ fuel ih =>
    intro round paths modes calls value made h
    unfold query_display_config_loop at h
    by_cases hs : (os.GetDisplayConfigBufferSizes round flags).result = ERROR_SUCCESS
    · simp only [hs, ne_eq, not_true_eq_false, if_false] at h
      by_cases hq : (os.QueryDisplayConfig round flags
          (os.GetDisplayConfigBufferSizes round flags).path_count
          (os.GetDisplayConfigBufferSizes round flags).mode_count).result
            = ERROR_INSUFFICIENT_BUFFER
      · simp only [hq, if_true] at h
        obtain ⟨recovered, last, hmade, hrec, hlast⟩ := ih _ _ _ _ _ _ h
        refine ⟨ConfigCall.buffer_sizes ERROR_SUCCESS
          :: ConfigCall.query ERROR_INSUFFICIENT_BUFFER :: recovered, last, ?_, ?_, hlast⟩
        · rw [hmade]; simp
        · intro c hc
          simp only [List.mem_cons] at hc
          rcases hc with rfl | rfl | hc
          · rfl
          · rfl
          · exact hrec c hc
      · simp only [hq, if_false] at h
        by_cases hok : (os.QueryDisplayConfig round flags
            (os.GetDisplayConfigBufferSizes round flags).path_count
            (os.GetDisplayConfigBufferSizes round flags).mode_count).result = ERROR_SUCCESS
        · simp only [hok, ne_eq, not_true_eq_false, if_false, Option.some.injEq,
            Prod.mk.injEq] at h
          refine ⟨[ConfigCall.buffer_sizes ERROR_SUCCESS], ConfigCall.query ERROR_SUCCESS,
            h.2.symm, ?_, Or.inr ⟨?_, rfl⟩⟩
          · intro c hc
            simp only [List.mem_singleton] at hc
            rw [hc]; rfl
          · rw [← h.1]; simp
        · simp only [hok, ne_eq, not_false_eq_true, if_true, Option.some.injEq,
            Prod.mk.injEq] at h
          refine ⟨[ConfigCall.buffer_sizes ERROR_SUCCESS], ConfigCall.query (os.QueryDisplayConfig
            round flags (os.GetDisplayConfigBufferSizes round flags).path_count
            (os.GetDisplayConfigBufferSizes round flags).mode_count).result,
            h.2.symm, ?_, Or.inl ⟨h.1.symm, ?_⟩⟩
          · intro c hc
            simp only [List.mem_singleton] at hc
            rw [hc]; rfl
          · simp [non_recoverable, hok, hq]
    · simp only [hs, ne_eq, not_false_eq_true, if_true, Option.some.injEq, Prod.mk.injEq] at h
      refine ⟨[], ConfigCall.buffer_sizes (os.GetDisplayConfigBufferSizes round flags).result,
        by simp [← h.2], ?_, Or.inl ⟨h.1.symm, ?_⟩⟩
      · intro c hc; simp at hc
      · simp [non_recoverable, hs]

/-- The loop returns once a round ends it. -/
theorem loop_terminates (os : WinApi) (flags : Nat) (n : Nat) :
    ∀ (round fuel : Nat) (paths : List DISPLAYCONFIG_PATH_INFO)
      (modes : List DISPLAYCONFIG_MODE_INFO) (calls : List ConfigCall),
      final_round os flags (round + n) = true → n < fuel →
      (query_display_config_loop os flags fuel round paths modes calls).isSome = true := by
  induction n with
  | zero =>
    intro round fuel paths modes calls h hfuel
    obtain ⟨fuel, rfl⟩ : ∃ f, fuel = f + 1 := ⟨fuel - 1, by omega⟩
    simp only [Nat.add_zero, final_round, round_query, Bool.or_eq_true, bne_iff_ne, ne_eq] at h
    unfold query_display_config_loop
    by_cases hs : (os.GetDisplayConfigBufferSizes round flags).result = ERROR_SUCCESS
    · have hq := h.resolve_left (not_not.mpr hs)
      simp only [hs, ne_eq, not_true_eq_false, if_false, hq]
      split <;> rfl
    · simp [hs]
  | succ n ih =>
    intro round fuel paths modes calls h hfuel
    obtain ⟨fuel, rfl⟩ : ∃ f, fuel = f + 1 := ⟨fuel - 1, by omega⟩
    unfold query_display_config_loop
    by_cases hs : (os.GetDisplayConfigBufferSizes round flags).result = ERROR_SUCCESS
    · simp only [hs, ne_eq, not_true_eq_false, if_false]
      split
      · have e : round + 1 + n = round + (n + 1) := by omega
        exact ih (round + 1) fuel _ _ _ (by rw [e]; exact h) (by omega)
      · split <;> rfl
    · simp [hs]

/-- C5: when the buffer-size call succeeds in every round and the topology query
reports "insufficient buffer" in its first `n` rounds and success in round `n + 1`,
`query_display_config` does not leave its loop in `n` rounds or fewer and returns after
exactly `n + 1` size-then-query rounds (`n` retries then the successful round).  The
value is present and holds as many paths and modes as the final query reported: the
records that query wrote, truncated to those counts, when it wrote that many within the
buffers. -/
theorem query_display_config_retries (os : WinApi) (type : query_type_e) (n : Nat)
    (hsizes : ∀ i, i ≤ n →
      (os.GetDisplayConfigBufferSizes i (query_flags type)).result = ERROR_SUCCESS)
    (hretry : ∀ i, i < n →
      (round_query os (query_flags type) i).result = ERROR_INSUFFICIENT_BUFFER)
    (hfinal : (round_query os (query_flags type) n).result = ERROR_SUCCESS) :
    (∀ few, few ≤ n → query_display_config os few type = none)
    ∧ (∀ fuel, n < fuel → ∃ data,
        query_display_config os fuel type
          = some (some data, retry_calls n
              ++ [ConfigCall.buffer_sizes ERROR_SUCCESS, ConfigCall.query ERROR_SUCCESS])
        ∧ data.paths.length = (round_query os (query_flags type) n).path_count
        ∧ data.modes.length = (round_query os (query_flags type) n).mode_count
        ∧ ((round_query os (query_flags type) n).path_count
              ≤ (round_query os (query_flags type) n).paths.length →
            (round_query os (query_flags type) n).path_count
              ≤ (os.GetDisplayConfigBufferSizes n (query_flags type)).path_count →
            data.paths = (round_query os (query_flags type) n).paths.take
              (round_query os (query_flags type) n).path_count)
        ∧ ((round_query os (query_flags type) n).mode_count
              ≤ (round_query os (query_flags type) n).modes.length →
            (round_query os (query_flags type) n).mode_count
              ≤ (os.GetDisplayConfigBufferSizes n (query_flags type)).mode_count →
            data.modes = (round_query os (query_flags type) n).modes.take
              (round_query os (query_flags type) n).mode_count)) := by
  constructor
  · intro few hfew
    obtain ⟨paths2, modes2, h⟩ := loop_retries os (query_flags type) few 0 0 [] [] []
      (by intro i hi
          simp only [Nat.zero_add]
          exact ⟨hsizes i (by omega), hretry i (by omega)⟩)
    unfold query_display_config
    rw [Nat.zero_add] at h
    rw [h]
    rfl
  · intro fuel hfuel
    obtain ⟨extra, rfl⟩ : ∃ extra, fuel = (extra + 1) + n := ⟨fuel - n - 1, by omega⟩
    obtain ⟨paths2, modes2, h⟩ := loop_retries os (query_flags type) n (extra + 1) 0 [] [] []
      (by intro i hi
          simp only [Nat.zero_add]
          exact ⟨hsizes i (by omega), hretry i (by omega)⟩)
    have hs := hsizes n (Nat.le_refl n)
    have hq := hfinal
    unfold round_query at hq
    have hne : ERROR_SUCCESS ≠ ERROR_INSUFFICIENT_BUFFER := by decide
    unfold query_display_config
    rw [h]
    simp only [Nat.zero_add, List.nil_append]
    unfold query_display_config_loop
    simp only [hs, hq, hne, ne_eq, not_true_eq_false, if_false, List.append_assoc,
      List.singleton_append]
    refine ⟨_, rfl, ?_, ?_, ?_, ?_⟩
    · simp [vector_resize_length, round_query]
    · simp [vector_resize_length, round_query]
    · intro hw hb
      exact resize_write_take _ _ _ _ hw (by rw [vector_resize_length]; exact hb)
    · intro hw hb
      exact resize_write_take _ _ _ _ hw (by rw [vector_resize_length]; exact hb)

/-- C5, on a sample: two "insufficient buffer" rounds, then a successful query that
wrote two paths and one mode into buffers of three and two records. -/
theorem query_display_config_retries_witness :
    query_display_config (sample_config_os 2 ERROR_SUCCESS) 2 query_type_e.Active = none
    ∧ query_display_config (sample_config_os 2 ERROR_SUCCESS) 3 query_type_e.Active
        = some (some ⟨sample_paths, sample_modes⟩, retry_calls 2
            ++ [ConfigCall.buffer_sizes ERROR_SUCCESS, ConfigCall.query ERROR_SUCCESS]) := by
  have h := query_display_config_retries (sample_config_os 2 ERROR_SUCCESS)
    query_type_e.Active 2 (by intro i _; rfl)
    (by intro i hi; interval_cases i <;> rfl) (by rfl)
  obtain ⟨data, hdata, _, _, hpaths, hmodes⟩ := h.2 3 (by decide)
  have hp : data.paths = sample_paths := hpaths (by decide) (by decide)
  have hm : data.modes = sample_modes := hmodes (by decide) (by decide)
  have hd : data = ⟨sample_paths, sample_modes⟩ := by
    cases data
    simp only [path_and_mode_data_t.mk.injEq]
    exact ⟨hp, hm⟩
  rw [hd] at hdata
  exact ⟨h.1 2 (by decide), hdata⟩

/-- C6: whenever `query_display_config` returns, the value is absent exactly when one of
the calls it made returned a non-recoverable status (a buffer-size call that is not a
success, or a topology query that is neither a success nor "insufficient buffer"); a
present value comes with a last call that is a topology query returning success; and a
call with a non-recoverable status is the last call made.  The function returns as soon
as a round ends the loop. -/
theorem query_display_config_absent_iff (os : WinApi) (type : query_type_e) :
    (∀ fuel value made, query_display_config os fuel type = some (value, made) →
      (value = none ↔ ∃ c, c ∈ made ∧ non_recoverable c = true)
      ∧ (value ≠ none → made.getLast? = some (ConfigCall.query ERROR_SUCCESS))
      ∧ (∀ i c, made[i]? = some c → non_recoverable c = true → i + 1 = made.length))
    ∧ (∀ n fuel, final_round os (query_flags type) n = true → n < fuel →
        (query_display_config os fuel type).isSome = true) := by
  constructor
  · intro fuel value made h
    obtain ⟨recovered, last, hmade, hrec, hlast⟩ :=
      loop_returns os (query_flags type) fuel 0 [] [] [] value made h
    simp only [List.nil_append] at hmade
    have hgood : non_recoverable (ConfigCall.query ERROR_SUCCESS) = false := by decide
    refine ⟨?_, ?_, ?_⟩
    · constructor
      · intro hv
        rcases hlast with ⟨_, hl⟩ | ⟨hv2, _⟩
        · exact ⟨last, by simp [hmade], hl⟩
        · exact absurd hv hv2
      · rintro ⟨c, hc, hbad⟩
        rcases hlast with ⟨hv, _⟩ | ⟨_, hl⟩
        · exact hv
        · rw [hmade, List.mem_append, List.mem_singleton] at hc
          rcases hc with hc | hc
          · rw [hrec c hc] at hbad; exact absurd hbad (by decide)
          · rw [hc, hl, hgood] at hbad; exact absurd hbad (by decide)
    · intro hv
      rcases hlast with ⟨hv2, _⟩ | ⟨_, hl⟩
      · exact absurd hv2 hv
      · rw [hmade, List.getLast?_concat, hl]
    · intro i c hi hbad
      rw [hmade] at hi ⊢
      by_cases hlt : i < recovered.length
      · rw [List.getElem?_append_left hlt] at hi
        have := hrec c (List.getElem?_mem hi)
        rw [this] at hbad
        exact absurd hbad (by decide)
      · have hle : recovered.length ≤ i := by omega
        rw [List.getElem?_append_right hle] at hi
        have hidx : i - recovered.length < [last].length := by
          by_contra hcon
          rw [List.getElem?_eq_none (by omega)] at hi
          exact absurd hi (by simp)
        simp only [List.length_singleton] at hidx
        simp only [List.length_append, List.length_singleton]
        omega
  · intro n fuel hfin hfuel
    exact loop_terminates os (query_flags type) n 0 fuel [] [] [] (by simpa using hfin) hfuel

/-- C6, on a sample: one "insufficient buffer" round, then a query that is denied
access; the value is absent and the denied query is the fourth and last call. -/
theorem query_display_config_absent_iff_witness :
    query_display_config (sample_config_os 1 5) 2 query_type_e.All
        = some (none, retry_calls 1 ++ [ConfigCall.buffer_sizes ERROR_SUCCESS, ConfigCall.query 5])
    ∧ 3 + 1 = (retry_calls 1
        ++ [ConfigCall.buffer_sizes ERROR_SUCCESS, ConfigCall.query 5]).length
    ∧ (query_display_config (sample_config_os 1 5) 2 query_type_e.All).isSome = true := by
  have h := query_display_config_absent_iff (sample_config_os 1 5) query_type_e.All
  have hrun : query_display_config (sample_config_os 1 5) 2 query_type_e.All
      = some (none, retry_calls 1
          ++ [ConfigCall.buffer_sizes ERROR_SUCCESS, ConfigCall.query 5]) := by decide
  exact ⟨hrun, (h.1 2 none _ hrun).2.2 3 (ConfigCall.query 5) (by decide) (by decide),
    h.2 1 2 (by decide) (by decide)⟩

/-! ## The error formatter: `get_error_string` -/

/-- The character of a decimal digit stands for that digit. -/
theorem digit_char_value (d : Nat) (h : d < 10) :
    (Char.ofNat (48 + d)).toNat - 48 = d
      ∧ 48 ≤ (Char.ofNat (48 + d)).toNat ∧ (Char.ofNat (48 + d)).toNat ≤ 57 := by
  interval_cases d <;> decide

/-- Appending one digit multiplies the value by ten and adds the digit. -/
theorem decimal_value_append (digits : std_string) (c : Char) :
    decimal_value (digits ++ [c]) = 10 * decimal_value digits + (c.toNat - 48) := by
  simp [decimal_value, List.foldl_append]

/-- With enough fuel the digits written for `n` stand for `n`, and each is a digit. -/
theorem decimal_digits_spec (fuel : Nat) :
    ∀ n : Nat, n < fuel →
      decimal_value (decimal_digits fuel n) = n
        ∧ decimal_digits fuel n ≠ []
        ∧ ∀ c, c ∈ decimal_digits fuel n → 48 ≤ c.toNat ∧ c.toNat ≤ 57 := by
  induction fuel with
  | zero => intro n h; omega
  | succ fuel ih =>
    intro n hn
    unfold decimal_digits
    by_cases hsmall : n < 10
    · simp only [hsmall, if_true]
      have hd := digit_char_value n hsmall
      refine ⟨by simp [decimal_value, hd.1], by simp, ?_⟩
      intro c hc
      simp only [List.mem_singleton] at hc
      rw [hc]; exact hd.2
    · simp only [hsmall, if_false]
      have hrec := ih (n / 10) (by omega)
      have hd := digit_char_value (n % 10) (Nat.mod_lt _ (by omega))
      refine ⟨?_, by simp, ?_⟩
      · rw [decimal_value_append, hrec.1, hd.1]; omega
      · intro c hc
        simp only [List.mem_append, List.mem_singleton] at hc
        rcases hc with hc | hc
        · exact hrec.2.2 c hc
        · rw [hc]; exact hd.2

/-- The decimal rendering of a code starts with a minus sign or a digit. -/
theorem decimal_starts_numeric (value : LONG) : starts_numeric (decimal value) = true := by
  have h := decimal_digits_spec (value.natAbs + 1) value.natAbs (by omega)
  unfold decimal
  split
  · simp [starts_numeric]
  · cases hd : decimal_digits (value.natAbs + 1) value.natAbs with
    | nil => exact absurd hd h.2.1
    | cons c rest =>
      have := h.2.2 c (by rw [hd]; simp)
      simp [starts_numeric, this.1, this.2]

/-- Different codes have different decimal renderings. -/
theorem decimal_injective (a b : Int) (h : decimal a = decimal b) : a = b := by
  have ha := decimal_digits_spec (a.natAbs + 1) a.natAbs (by omega)
  have hb := decimal_digits_spec (b.natAbs + 1) b.natAbs (by omega)
  unfold decimal at h
  by_cases hna : a < 0 <;> by_cases hnb : b < 0
  · simp only [hna, hnb, if_true, List.cons.injEq, true_and] at h
    have := ha.1
    rw [h, hb.1] at this
    omega
  · simp only [hna, hnb, if_true, if_false] at h
    have := hb.2.2 (Char.ofNat 45) (by rw [← h]; simp)
    exact absurd this.1 (by decide)
  · simp only [hna, hnb, if_true, if_false] at h
    have := ha.2.2 (Char.ofNat 45) (by rw [h]; simp)
    exact absurd this.1 (by decide)
  · simp only [hna, hnb, if_false] at h
    have := ha.1
    rw [h, hb.1] at this
    omega

/-- A code outside the six symbolic ones is written in decimal. -/
theorem code_of_other (c : LONG) (h : c ∉ symbolic_codes) :
    get_error_string_code c = decimal c := by
  simp only [symbolic_codes, List.mem_cons, List.mem_singleton, List.not_mem_nil, or_false,
    not_or] at h
  obtain ⟨h1, h2, h3, h4, h5, h6⟩ := h
  simp [get_error_string_code, h1, h2, h3, h4, h5, h6]

/-- A symbolic name does not start like a number. -/
theorem code_of_symbolic (c : LONG) (h : c ∈ symbolic_codes) :
    starts_numeric (get_error_string_code c) = false := by
  simp only [symbolic_codes, List.mem_cons, List.mem_singleton, List.not_mem_nil, or_false] at h
  rcases h with rfl | rfl | rfl | rfl | rfl | rfl <;> decide

/-- Different codes are written differently between `[code: ` and `, message: `. -/
theorem code_injective (a b : LONG) (h : get_error_string_code a = get_error_string_code b) :
    a = b := by
  by_cases ha : a ∈ symbolic_codes <;> by_cases hb : b ∈ symbolic_codes
  · simp only [symbolic_codes, List.mem_cons, List.mem_singleton, List.not_mem_nil,
      or_false] at ha hb
    rcases ha with rfl | rfl | rfl | rfl | rfl | rfl <;>
      rcases hb with rfl | rfl | rfl | rfl | rfl | rfl <;>
      first
        | rfl
        | exact absurd h (by decide)
  · have h1 := code_of_symbolic a ha
    rw [h, code_of_other b hb, decimal_starts_numeric] at h1
    exact absurd h1 (by decide)
  · have h1 := code_of_symbolic b hb
    rw [← h, code_of_other a ha, decimal_starts_numeric] at h1
    exact absurd h1 (by decide)
  · rw [code_of_other a ha, code_of_other b hb] at h
    exact decimal_injective a b h

/-- C11: for every status code, `get_error_string` is `[code: ` followed by a code label,
`, message: `, the system message of the code and `]`; the label is the symbolic name for
`ERROR_INVALID_PARAMETER`, `ERROR_NOT_SUPPORTED`, `ERROR_ACCESS_DENIED`,
`ERROR_INSUFFICIENT_BUFFER`, `ERROR_GEN_FAILURE` and `ERROR_SUCCESS`, and the decimal
rendering of the code for every other code; two different status codes never get the same
label. -/
theorem get_error_string_format (message : LONG → std_string) :
    (∀ c : LONG, get_error_string message c
        = String.toList "[code: " ++ get_error_string_code c ++ String.toList ", message: "
          ++ message c ++ String.toList "]")
    ∧ get_error_string_code ERROR_INVALID_PARAMETER = String.toList "ERROR_INVALID_PARAMETER"
    ∧ get_error_string_code ERROR_NOT_SUPPORTED = String.toList "ERROR_NOT_SUPPORTED"
    ∧ get_error_string_code ERROR_ACCESS_DENIED = String.toList "ERROR_ACCESS_DENIED"
    ∧ get_error_string_code ERROR_INSUFFICIENT_BUFFER
        = String.toList "ERROR_INSUFFICIENT_BUFFER"
    ∧ get_error_string_code ERROR_GEN_FAILURE = String.toList "ERROR_GEN_FAILURE"
    ∧ get_error_string_code ERROR_SUCCESS = String.toList "ERROR_SUCCESS"
    ∧ (∀ c : LONG, c ∉ symbolic_codes → get_error_string_code c = decimal c)
    ∧ (∀ a b : LONG, a ≠ b → get_error_string_code a ≠ get_error_string_code b) := by
  refine ⟨fun c => rfl, by decide, by decide, by decide, by decide, by decide, by decide,
    code_of_other, ?_⟩
  intro a b hne h
  exact hne (code_injective a b h)

/-- C11, on a sample: the code 259 is written in decimal, and the codes 5 and 259 get
different labels. -/
theorem get_error_string_format_witness :
    get_error_string_code 259 = decimal 259
    ∧ get_error_string_code 5 ≠ get_error_string_code 259
    ∧ get_error_string sample_message 259
        = String.toList "[code: 259, message: Unknown error]" :=
  ⟨(get_error_string_format sample_message).2.2.2.2.2.2.2.1 259 (by decide),
   (get_error_string_format sample_message).2.2.2.2.2.2.2.2 5 259 (by decide),
   by decide⟩

/-! ## The raw identity input in detail -/

/-- Every wide character contributes `sizeof(wchar_t)` bytes. -/
theorem wstring_bytes_length (s : wstring) :
    (wstring_bytes s).length = sizeof_wchar_t * s.length := by
  induction s with
  | nil => rfl
  | cons c rest ih => simp only [wstring_bytes, List.length_cons, ih, sizeof_wchar_t]; omega

/-- The indices of the first three `&` of an id, and its parts around the third segment. -/
theorem split_indices (A B C rest : wstring) (hA : ampersand ∉ A) (hB : ampersand ∉ B)
    (hC : ampersand ∉ C) :
    find_first_of (A ++ ampersand :: (B ++ ampersand :: (C ++ ampersand :: rest))) ampersand 0
        = some A.length
    ∧ find_first_of (A ++ ampersand :: (B ++ ampersand :: (C ++ ampersand :: rest))) ampersand
        (A.length + 1) = some (A.length + 1 + B.length)
    ∧ find_first_of (A ++ ampersand :: (B ++ ampersand :: (C ++ ampersand :: rest))) ampersand
        (A.length + 1 + B.length + 1) = some (A.length + 1 + B.length + 1 + C.length)
    ∧ List.take (A.length + 1 + B.length)
        (A ++ ampersand :: (B ++ ampersand :: (C ++ ampersand :: rest))) = A ++ ampersand :: B
    ∧ List.drop (A.length + 1 + B.length + 1 + C.length)
        (A ++ ampersand :: (B ++ ampersand :: (C ++ ampersand :: rest))) = ampersand :: rest := by
  refine ⟨find_first_of_zero ampersand A _ hA, ?_, ?_, ?_, ?_⟩
  · have h := find_first_of_after ampersand (A ++ [ampersand]) B (C ++ ampersand :: rest) hB
    simpa using h
  · have h := find_first_of_after ampersand (A ++ ampersand :: (B ++ [ampersand])) C rest hC
    have e : (A ++ ampersand :: (B ++ [ampersand])).length = A.length + 1 + B.length + 1 := by
      simp; omega
    rw [e] at h
    simpa using h
  · have e : A ++ ampersand :: (B ++ ampersand :: (C ++ ampersand :: rest))
        = (A ++ ampersand :: B) ++ (ampersand :: (C ++ ampersand :: rest)) := by simp
    rw [e]
    exact List.take_left' (by simp; omega)
  · have e : A ++ ampersand :: (B ++ ampersand :: (C ++ ampersand :: rest))
        = (A ++ ampersand :: (B ++ ampersand :: C)) ++ (ampersand :: rest) := by simp
    rw [e]
    exact List.drop_left' (by simp; omega)

/-- C12: for a matched record with a non-empty EDID and an instance id with at least
three `&` characters, the second at index `i2` and the third at index `i3`, the raw bytes
`get_device_id` hashes are the EDID bytes, then the bytes of the wide characters of the
id before index `i2`, then the bytes of those from index `i3` (that `&` included) to the
end; the characters from the second `&` up to the third are the only ones left out, and
the raw length is `|EDID| + sizeof(wchar_t) * (i2 + (n - i3))` for an id of `n`
characters. -/
theorem raw_bytes_of_split (os : WinApi) (path : DISPLAYCONFIG_PATH_INFO) (k : Nat)
    (entry : InterfaceEntry) (fuel : Nat) (A B C rest id : wstring) (edid : List BYTE)
    (i1 i2 i3 : Nat)
    (h : matched_for os path k entry)
    (hform : id = A ++ ampersand :: (B ++ ampersand :: (C ++ ampersand :: rest)))
    (hA : ampersand ∉ A) (hB : ampersand ∉ B) (hC : ampersand ∉ C)
    (hi1 : i1 = A.length) (hi2 : i2 = i1 + 1 + B.length) (hi3 : i3 = i2 + 1 + C.length)
    (hid : get_device_instance_id entry.instance_id [] = (true, id))
    (hedid : get_device_edid entry.edid [] = (true, edid)) (hfuel : k < fuel) :
    find_first_of id ampersand 0 = some i1
    ∧ find_first_of id ampersand (i1 + 1) = some i2
    ∧ find_first_of id ampersand (i2 + 1) = some i3
    ∧ get_device_id_data os fuel path
        = some (edid ++ wstring_bytes (id.take i2) ++ wstring_bytes (id.drop i3))
    ∧ id = id.take i2 ++ (ampersand :: C) ++ id.drop i3
    ∧ (edid ++ wstring_bytes (id.take i2) ++ wstring_bytes (id.drop i3)).length
        = edid.length + sizeof_wchar_t * (i2 + (id.length - i3)) := by
  subst hform hi1 hi2 hi3
  obtain ⟨f1, f2, f3, ht, hd⟩ := split_indices A B C rest hA hB hC
  have hne : edid ≠ [] := by
    have := edid_nonempty_of_success entry.edid (by rw [hedid])
    rwa [hedid] at this
  refine ⟨f1, f2, f3, ?_, ?_, ?_⟩
  · rw [ht, hd, data_of_first_match os path k entry fuel h hfuel,
      get_device_id_matched_split entry A B C rest edid hid hA hB hC hedid]
    cases edid with
    | nil => exact absurd rfl hne
    | cons b bs => rfl
  · rw [ht, hd]; simp
  · rw [ht, hd]
    simp only [List.length_append, wstring_bytes_length, List.length_cons, sizeof_wchar_t]
    omega

/-- C12, on a sample: the instance id `A&B&C&D` (second `&` at index 3, third at
index 5) with the EDID bytes `00 FF` gives 2 + 2 * (3 + (7 - 5)) = 12 raw bytes. -/
theorem raw_bytes_of_split_witness :
    get_device_id_data (sample_scan_os (wide "A&B&C&D") [0, 255]) 3 sample_path
        = some ([0, 255] ++ wstring_bytes ((wide "A&B&C&D").take 3)
            ++ wstring_bytes ((wide "A&B&C&D").drop 5))
    ∧ ([0, 255] ++ wstring_bytes ((wide "A&B&C&D").take 3)
          ++ wstring_bytes ((wide "A&B&C&D").drop 5)).length
        = [0, 255].length + sizeof_wchar_t * (3 + ((wide "A&B&C&D").length - 5)) :=
  ⟨(raw_bytes_of_split (sample_scan_os (wide "A&B&C&D") [0, 255]) sample_path 2
      (sample_entry (wide "\\\\?\\d#1") (wide "A&B&C&D") [0, 255]) 3
      (wide "A") (wide "B") (wide "C") (wide "D") (wide "A&B&C&D") [0, 255] 1 3 5
      (by decide) (by decide) (by decide) (by decide) (by decide) (by decide) (by decide)
      (by decide) (by decide) (by decide) (by decide)).2.2.2.1,
   (raw_bytes_of_split (sample_scan_os (wide "A&B&C&D") [0, 255]) sample_path 2
      (sample_entry (wide "\\\\?\\d#1") (wide "A&B&C&D") [0, 255]) 3
      (wide "A") (wide "B") (wide "C") (wide "D") (wide "A&B&C&D") [0, 255] 1 3 5
      (by decide) (by decide) (by decide) (by decide) (by decide) (by decide) (by decide)
      (by decide) (by decide) (by decide) (by decide)).2.2.2.2.2⟩

/-- A successful search returns the position after a prefix without the character. -/
theorem find_from_some (c : wchar_t) (s : wstring) :
    ∀ (i j : Nat), find_from c s i = some j →
      ∃ A rest, s = A ++ c :: rest ∧ c ∉ A ∧ j = i + A.length := by
  induction s with
  | nil => intro i j h; simp [find_from] at h
  | cons x xs ih =>
    intro i j h
    unfold find_from at h
    by_cases hx : x = c
    · simp only [hx, if_true, Option.some.injEq] at h
      exact ⟨[], xs, by simp [hx], by simp, by simp [h]⟩
    · simp only [hx, if_false] at h
      obtain ⟨A, rest, hs, hA, hj⟩ := ih (i + 1) j h
      refine ⟨x :: A, rest, by simp [hs], ?_, by simp [hj]; omega⟩
      intro hmem
      simp only [List.mem_cons] at hmem
      rcases hmem with hmem | hmem
      · exact hx hmem.symm
      · exact hA hmem

/-- Each successful search leaves one occurrence fewer behind the position found. -/
theorem count_after_find (s : wstring) (c : wchar_t) (pos j : Nat)
    (h : find_first_of s c pos = some j) :
    (s.drop (j + 1)).count c + 1 ≤ (s.drop pos).count c := by
  unfold find_first_of at h
  obtain ⟨A, rest, hs, _, hj⟩ := find_from_some c (s.drop pos) pos j h
  have hdrop : s.drop (j + 1) = rest := by
    have e : j + 1 = pos + (A.length + 1) := by omega
    rw [e, ← List.drop_drop, hs]
    have e2 : A ++ c :: rest = (A ++ [c]) ++ rest := by simp
    rw [e2]
    exact List.drop_left' (by simp)
  rw [hdrop, hs, List.count_append, List.count_cons_self]
  omega

/-- With fewer than three `&` in the id the loop body keeps the fetched EDID alone. -/
theorem matched_of_short_id (entry : InterfaceEntry) (id : wstring) (edid : List BYTE)
    (hid : get_device_instance_id entry.instance_id [] = (true, id))
    (hcount : id.count ampersand < 3)
    (hedid : get_device_edid entry.edid [] = (true, edid)) :
    get_device_id_matched entry [] = edid := by
  unfold get_device_id_matched
  simp only [hid, hedid]
  cases h1 : find_first_of id ampersand 0 with
  | none => simp
  | some i1 =>
    cases h2 : find_first_of id ampersand (i1 + 1) with
    | none => simp [h2]
    | some i2 =>
      cases h3 : find_first_of id ampersand (i2 + 1) with
      | none => simp [h2, h3]
      | some i3 =>
        exfalso
        have c1 := count_after_find id ampersand 0 i1 h1
        have c2 := count_after_find id ampersand (i1 + 1) i2 h2
        have c3 := count_after_find id ampersand (i2 + 1) i3 h3
        simp only [List.drop_zero] at c1
        omega

/-- C13: the device-path fallback of `get_device_id` is taken only when the raw byte
buffer is still empty after the scan.  For a matched record whose EDID fetch returned a
non-empty EDID and whose instance id contains fewer than three `&` characters, the split
is abandoned with the EDID left in the buffer: the raw bytes hashed are exactly the EDID
bytes, and the bytes of the monitor device path are not added. -/
theorem edid_alone_after_abandoned_split (os : WinApi) (path : DISPLAYCONFIG_PATH_INFO)
    (k : Nat) (entry : InterfaceEntry) (fuel : Nat) (id : wstring) (edid : List BYTE)
    (h : matched_for os path k entry)
    (hid : get_device_instance_id entry.instance_id [] = (true, id))
    (hcount : id.count ampersand < 3)
    (hedid : get_device_edid entry.edid [] = (true, edid)) (hfuel : k < fuel) :
    get_device_id_scan os (get_monitor_device_path_wstr os path) fuel 0 []
        = some (edid, List.range (k + 1))
    ∧ edid ≠ []
    ∧ get_device_id_data os fuel path = some edid
    ∧ get_device_id_data os fuel path
        ≠ some (edid ++ wstring_bytes (get_monitor_device_path_wstr os path)) := by
  have hne : edid ≠ [] := by
    have := edid_nonempty_of_success entry.edid (by rw [hedid])
    rwa [hedid] at this
  have hm := matched_of_short_id entry id edid hid hcount hedid
  have hdata : get_device_id_data os fuel path = some edid := by
    rw [data_of_first_match os path k entry fuel h hfuel, hm]
    cases edid with
    | nil => exact absurd rfl hne
    | cons b bs => rfl
  refine ⟨?_, hne, hdata, ?_⟩
  · rw [scan_first_match os _ k entry fuel h.2 hfuel, hm]
  · rw [hdata]
    intro heq
    have hp := device_path_of_matched_for os path k entry h
    cases hdp : get_monitor_device_path_wstr os path with
    | nil => exact hp hdp
    | cons c cs =>
      rw [hdp] at heq
      simp [wstring_bytes] at heq

/-- C13, on a sample: the instance id `A&B&C` (two `&`) with the EDID bytes `00 FF`. -/
theorem edid_alone_after_abandoned_split_witness :
    get_device_id_data (sample_scan_os (wide "A&B&C" ++ [0]) [0, 255]) 3 sample_path
      = some [0, 255] :=
  (edid_alone_after_abandoned_split (sample_scan_os (wide "A&B&C" ++ [0]) [0, 255])
    sample_path 2 (sample_entry (wide "\\\\?\\d#1") (wide "A&B&C" ++ [0]) [0, 255]) 3
    (wide "A&B&C" ++ [0]) [0, 255]
    (by decide) (by decide) (by decide) (by decide) (by decide)).2.2.1

/-! ## When `get_device_id` returns -/

/-- Reading up to the first NUL stops inside a range that holds a NUL. -/
theorem wstring_of_array_append_left (array next : List wchar_t) (h : 0 ∈ array) :
    wstring_of_array (array ++ next) = wstring_of_array array := by
  induction array with
  | nil => simp at h
  | cons c rest ih =>
    by_cases hc : c = 0
    · simp [wstring_of_array, hc]
    · have hrest : 0 ∈ rest := by
        simp only [List.mem_cons] at h
        rcases h with h | h
        · exact absurd h.symm hc
        · exact h
      have := ih hrest
      simp only [wstring_of_array] at this ⊢
      simp [List.takeWhile_cons, hc, this]

/-- Reading up to the first NUL stops at the latest at a NUL that follows the range. -/
theorem wstring_of_array_append_nul (array next : List wchar_t) :
    wstring_of_array (array ++ 0 :: next) = wstring_of_array array := by
  induction array with
  | nil => simp [wstring_of_array]
  | cons c rest ih =>
    simp only [wstring_of_array] at ih ⊢
    by_cases hc : c = 0
    · simp [hc]
    · simp [List.takeWhile_cons, hc, ih]

/-- A friendly name that is terminated within its 64 elements is read as the characters
before its first NUL. -/
theorem friendly_name_terminated (target_name : TargetDeviceName)
    (h : 0 ∈ target_name.monitorFriendlyDeviceName.take 64
      ∨ target_name.monitorFriendlyDeviceName.length < 64) :
    friendly_name_wstr target_name
      = wstring_of_array target_name.monitorFriendlyDeviceName := by
  unfold friendly_name_wstr wchar_array buffer_write
  simp only [List.length_replicate, List.drop_replicate, List.append_assoc]
  rcases h with h | h
  · rw [wstring_of_array_append_left _ _ h]
    conv_rhs => rw [← List.take_append_drop 64 target_name.monitorFriendlyDeviceName]
    rw [wstring_of_array_append_left _ _ h]
  · rw [List.take_of_length_le (by omega)]
    obtain ⟨pad, hpad⟩ : ∃ pad, 64 - target_name.monitorFriendlyDeviceName.length = pad + 1 :=
      ⟨64 - target_name.monitorFriendlyDeviceName.length - 1, by omega⟩
    rw [hpad, List.replicate_succ, List.cons_append, wstring_of_array_append_nul]

/-- When the two `WideCharToMultiByte` calls answer as the conversion `conversion` does,
`to_utf8` returns what `conversion` gives. -/
theorem to_utf8_of_conversion (os : WinApi) (conversion : wstring → std_string)
    (hnil : conversion [] = [])
    (hos : ∀ value : wstring, value ≠ [] →
      os.WideCharToMultiByte_size value = (conversion value).length
        ∧ os.WideCharToMultiByte value (conversion value).length
          = ((conversion value).length, conversion value))
    (value : wstring) :
    to_utf8 os value = conversion value := by
  unfold to_utf8
  cases value with
  | nil => simp [hnil]
  | cons c rest =>
    obtain ⟨hsize, hfill⟩ := hos (c :: rest) (by simp)
    simp only [List.isEmpty_cons, Bool.false_eq_true, if_false, hsize, List.length_replicate,
      hfill]
    by_cases hzero : (conversion (c :: rest)).length = 0
    · simp [hzero, List.length_eq_zero.mp hzero]
    · simp [hzero, buffer_write]

/-- C9: `get_friendly_name` returns the empty string when the device-info query fails or
the name is not flagged as taken from the EDID, whatever name was reported.  When the
query succeeds and the flag is set it returns the conversion of the reported friendly
name: for every conversion that the two `WideCharToMultiByte` calls answer by, the result
is that conversion of the name read from the structure, and a name terminated within its
array is read as the characters before the first NUL. -/
theorem get_friendly_name_from_edid (os : WinApi) (path : DISPLAYCONFIG_PATH_INFO) :
    (((os.DisplayConfigGetDeviceInfo path.targetInfo.adapterId path.targetInfo.id).result
          ≠ ERROR_SUCCESS
        ∨ (os.DisplayConfigGetDeviceInfo path.targetInfo.adapterId
            path.targetInfo.id).friendlyNameFromEdid = false) →
      get_friendly_name os path = [])
    ∧ ((os.DisplayConfigGetDeviceInfo path.targetInfo.adapterId path.targetInfo.id).result
          = ERROR_SUCCESS →
        (os.DisplayConfigGetDeviceInfo path.targetInfo.adapterId
            path.targetInfo.id).friendlyNameFromEdid = true →
        ∀ conversion : wstring → std_string, conversion [] = [] →
          (∀ value : wstring, value ≠ [] →
            os.WideCharToMultiByte_size value = (conversion value).length
              ∧ os.WideCharToMultiByte value (conversion value).length
                = ((conversion value).length, conversion value)) →
          get_friendly_name os path
            = conversion (friendly_name_wstr
                (os.DisplayConfigGetDeviceInfo path.targetInfo.adapterId path.targetInfo.id)))
    ∧ ((0 ∈ (os.DisplayConfigGetDeviceInfo path.targetInfo.adapterId
              path.targetInfo.id).monitorFriendlyDeviceName.take 64
          ∨ (os.DisplayConfigGetDeviceInfo path.targetInfo.adapterId
              path.targetInfo.id).monitorFriendlyDeviceName.length < 64) →
        friendly_name_wstr
            (os.DisplayConfigGetDeviceInfo path.targetInfo.adapterId path.targetInfo.id)
          = wstring_of_array (os.DisplayConfigGetDeviceInfo path.targetInfo.adapterId
              path.targetInfo.id).monitorFriendlyDeviceName) := by
  refine ⟨?_, ?_, friendly_name_terminated _⟩
  · intro h
    unfold get_friendly_name
    rcases h with h | h
    · simp [h]
    · simp [h]
  · intro hr hf conversion hnil hos
    unfold get_friendly_name
    simp only [hr, hf, ne_eq, not_true_eq_false, if_false, if_true]
    exact to_utf8_of_conversion os conversion hnil hos _

/-- C9, on samples: a name `Monitor` flagged as taken from the EDID is returned
converted; a name that is not flagged gives the empty string; a flagged name of 64
characters `A` without a NUL is read on into the monitor device path `\\?\D#1`. -/
theorem get_friendly_name_from_edid_witness :
    get_friendly_name (sample_os sample_target_name []) sample_path = String.toList "Monitor"
    ∧ get_friendly_name (sample_os sample_generic_target_name []) sample_path = []
    ∧ get_friendly_name (sample_os sample_unterminated_target_name []) sample_path
        = List.replicate 64 (Char.ofNat 65) ++ String.toList "\\\\?\\D#1" := by
  have hos : ∀ (target_name : TargetDeviceName) (value : wstring), value ≠ [] →
      (sample_os target_name []).WideCharToMultiByte_size value
        = (sample_conversion value).length
      ∧ (sample_os target_name []).WideCharToMultiByte value (sample_conversion value).length
        = ((sample_conversion value).length, sample_conversion value) := by
    intro target_name value _
    simp [sample_os, sample_conversion]
  refine ⟨?_, ?_, ?_⟩
  · rw [(get_friendly_name_from_edid (sample_os sample_target_name []) sample_path).2.1
      (by decide) (by decide) sample_conversion rfl (hos sample_target_name)]
    decide
  · exact (get_friendly_name_from_edid (sample_os sample_generic_target_name [])
      sample_path).1 (Or.inr (by decide))
  · rw [(get_friendly_name_from_edid (sample_os sample_unterminated_target_name [])
      sample_path).2.1 (by decide) (by decide) sample_conversion rfl
      (hos sample_unterminated_target_name)]
    decide

end display_device
